import Mathlib

/-!
Verification of the `@plasius/analytics` local-space analytics client
(`src/core/client.ts`, final full-featured evolution).

The client is a single-threaded, cooperatively scheduled state machine.  The
only suspension point is the awaited transport call inside `flush`, so the
client is embedded as a set of pure step functions over an explicit
`ClientState`:

* `flushStart` is the synchronous part of `flush` up to (and including) the
  transport invocation;
* `flushComplete` is the continuation that runs when the awaited transport
  call settles (success or failure), including the `finally` block that
  coalesces a pending retry into at most one follow-up `flush`.

Host capabilities (the WHATWG URL parser used by `isSecureEndpoint`, the
regex/schema based text sanitization pipeline that ends in the external
`@plasius/schema` capability, `Date.now`, and id generation) are passed in
explicitly, exactly like the injected transport capability.  The synchronous
key-value store (`window.localStorage`) is modelled as an association list;
the non-browser / storage-unavailable short circuits of `readQueue` and
`writeQueue` are not modelled since every persistence claim is about the
storage-available path, and storage write failures are swallowed by design.

Machine integers: queue/batch bounds are `Nat`; timestamps are `Int`
(epoch milliseconds); the 32-bit rolling hash is a `Nat` kept below `2 ^ 32`
by an explicit `% 4294967296`, mirroring JavaScript's `ToInt32`/`>>> 0`
bit-pattern arithmetic.
-/

/-- `AnalyticsChannel`: logical origin of an event (`"frontend" | "backend"`). -/
inductive AnalyticsChannel where
  | frontend
  | backend
deriving DecidableEq, Repr

/-- `AnalyticsRuntime`: execution environment (`"browser" | "server"`). -/
inductive AnalyticsRuntime where
  | browser
  | server
deriving DecidableEq, Repr

/-- `AnalyticsEventKind`: `"interaction" | "error"`. -/
inductive AnalyticsEventKind where
  | interaction
  | error
deriving DecidableEq, Repr

/-- `AnalyticsErrorSeverity`: `"error" | "fatal"`. -/
inductive AnalyticsErrorSeverity where
  | error
  | fatal
deriving DecidableEq, Repr

/-- The string carried by a channel value (used when channels are stored or
interpolated into strings, e.g. storage keys and injected context). -/
def AnalyticsChannel.toStr : AnalyticsChannel → String
  | .frontend => "frontend"
  | .backend => "backend"

/-- The string carried by a runtime value. -/
def AnalyticsRuntime.toStr : AnalyticsRuntime → String
  | .browser => "browser"
  | .server => "server"

/-- The string carried by an event kind. -/
def AnalyticsEventKind.toStr : AnalyticsEventKind → String
  | .interaction => "interaction"
  | .error => "error"

/-- The string carried by a severity. -/
def AnalyticsErrorSeverity.toStr : AnalyticsErrorSeverity → String
  | .error => "error"
  | .fatal => "fatal"

/-- A shallow JSON-like context value (`AnalyticsContext` values): strings,
numbers, booleans, string arrays (the `errorTags` value) and null.  No claim
inspects deeply nested context trees, so arbitrary nesting is not modelled;
over these shallow values the context sanitizer below coincides with the
source's recursive one. -/
inductive CtxVal where
  | str (s : String)
  | num (n : Int)
  | bool (b : Bool)
  | strList (l : List String)
  | null
deriving DecidableEq, Repr

/-- `AnalyticsContext` = `Record<string, unknown>`: an ordered key-value map,
modelled as an association list without duplicate keys (JavaScript object
property order is insertion order). -/
abbrev AnalyticsContext := List (String × CtxVal)

/-- Key lookup in a context (JavaScript property read). -/
def AnalyticsContext.get (ctx : AnalyticsContext) (key : String) : Option CtxVal :=
  (List.lookup key ctx)

/-- JavaScript object spread `{...base, ...ext}`: keys of `base` first (values
overridden by `ext` where present), then the keys of `ext` not in `base`. -/
def AnalyticsContext.merge (base ext : AnalyticsContext) : AnalyticsContext :=
  (base.map fun kv => (kv.1, ((AnalyticsContext.get ext kv.1).getD kv.2)))
    ++ ext.filter fun kv => (AnalyticsContext.get base kv.1).isNone

/-- Property write `obj[key] = v` for a key that may or may not be present. -/
def AnalyticsContext.set (ctx : AnalyticsContext) (key : String) (v : CtxVal) :
    AnalyticsContext :=
  if (AnalyticsContext.get ctx key).isSome then
    ctx.map fun kv => if kv.1 = key then (kv.1, v) else kv
  else
    ctx ++ [(key, v)]

/-- `LocalSpaceAnalyticsErrorDetails` (types.ts): the structured error-detail
record embedded in error-kind analytics records. -/
structure LocalSpaceAnalyticsErrorDetails where
  boundary : String
  name : String
  message : String
  fingerprint : String
  handled : Bool
  severity : AnalyticsErrorSeverity
  stack : Option String
  componentStack : Option String
  tags : Option (List String)
deriving DecidableEq, Repr

/-- `LocalSpaceAnalyticsRecord` (types.ts): one queued analytics event. -/
structure LocalSpaceAnalyticsRecord where
  id : String
  component : String
  action : String
  kind : AnalyticsEventKind
  channel : AnalyticsChannel
  runtime : AnalyticsRuntime
  label : Option String
  href : Option String
  variant : Option String
  requestId : Option String
  source : String
  sessionId : String
  timestamp : Int
  context : AnalyticsContext
  error : Option LocalSpaceAnalyticsErrorDetails
deriving DecidableEq, Repr

/-- `LocalSpaceAnalyticsEvent` (types.ts): the caller-facing `track` input. -/
structure LocalSpaceAnalyticsEvent where
  component : String
  action : String
  kind : Option AnalyticsEventKind
  channel : Option AnalyticsChannel
  label : Option String
  href : Option String
  variant : Option String
  requestId : Option String
  context : Option AnalyticsContext
  error : Option LocalSpaceAnalyticsErrorDetails
  timestamp : Option Int
deriving DecidableEq, Repr

/-- JavaScript `String.prototype.trim`, computed on the character list
(whitespace per `Char.isWhitespace`; JavaScript also trims a few exotic
Unicode spaces no input of this development contains). -/
def jsTrim (s : String) : String :=
  String.mk
    (((s.data.dropWhile Char.isWhitespace).reverse.dropWhile Char.isWhitespace).reverse)

/-- JavaScript `String.prototype.startsWith`. -/
def jsStartsWith (s pre : String) : Bool :=
  pre.data.isPrefixOf s.data

/-- JavaScript `String.prototype.toLowerCase` (ASCII case folding). -/
def jsToLower (s : String) : String :=
  String.mk (s.data.map Char.toLower)

/-- JavaScript `String.prototype.slice(0, n)` (units modelled as characters). -/
def jsSlice (s : String) (n : Nat) : String :=
  String.mk (s.data.take n)

/-- JavaScript `String.prototype.slice(n)`. -/
def jsDropChars (s : String) (n : Nat) : String :=
  String.mk (s.data.drop n)

/-- The prefix of a string satisfying a character predicate. -/
def jsTakeWhile (p : Char → Bool) (s : String) : String :=
  String.mk (s.data.takeWhile p)

/-- `String.prototype.split` on a single character, over the char list. -/
def splitOnCharAux (c : Char) : List Char → List String
  | [] => [""]
  | ch :: rest =>
    let acc := splitOnCharAux c rest
    if ch = c then "" :: acc
    else
      match acc with
      | h :: t => String.mk (ch :: h.data) :: t
      | [] => [String.mk [ch]]

/-- JavaScript `String.prototype.split(c)` for a one-character separator. -/
def splitOnChar (c : Char) (s : String) : List String :=
  splitOnCharAux c s.data

/-- `hashString` (client.ts): the djb2-style rolling hash.
`hash = 5381; hash = (hash * 33) ^ charCode` under JavaScript 32-bit bitwise
semantics; the final `>>> 0` yields the unsigned 32-bit bit pattern, which is
exactly what the `% 2^32` / `Nat.xor` arithmetic below computes.  Character
codes are modelled as Unicode scalar values, which matches `charCodeAt` for
all BMP text (every string the client hashes is sanitized single-line text). -/
def hashString (input : String) : Nat :=
  input.data.foldl (fun hash c => (hash * 33 % 4294967296) ^^^ c.toNat) 5381

/-- JavaScript `Number.prototype.toString(16)` for an unsigned 32-bit value. -/
def hexString (n : Nat) : String :=
  String.mk (Nat.toDigits 16 n)

/-- Characters the default storage-key source segment keeps
(`/[^a-z0-9._-]+/` is the replaced class). -/
def isStorageSegmentChar (c : Char) : Bool :=
  ('a' ≤ c && c ≤ 'z') || ('0' ≤ c && c ≤ '9')
    || c = '.' || c = '_' || c = '-'

mutual

/-- Replace each maximal run of disallowed characters with a single `-`
(the `replace(/[^a-z0-9._-]+/g, "-")` of `sanitizeStorageSourceSegment`). -/
def collapseDisallowed : List Char → List Char
  | [] => []
  | c :: rest =>
    if isStorageSegmentChar c then c :: collapseDisallowed rest
    else '-' :: skipDisallowed rest

/-- Skip the remainder of a disallowed-character run. -/
def skipDisallowed : List Char → List Char
  | [] => []
  | c :: rest =>
    if isStorageSegmentChar c then c :: collapseDisallowed rest
    else skipDisallowed rest

end

/-- `sanitizeStorageSourceSegment` (client.ts). -/
def sanitizeStorageSourceSegment (source : String) : String :=
  let normalized := String.mk (collapseDisallowed (jsToLower (jsTrim source)).data)
  if normalized = "" then "unknown-source" else normalized

/-- `DEFAULT_STORAGE_KEY_PREFIX` (client.ts). -/
def DEFAULT_STORAGE_KEY_PREFIX : String := "plasius.analytics.local-space.queue"

/-- `buildDefaultStorageKey` (client.ts). -/
def buildDefaultStorageKey (source : String) (channel : AnalyticsChannel) : String :=
  DEFAULT_STORAGE_KEY_PREFIX ++ "." ++ channel.toStr ++ "."
    ++ sanitizeStorageSourceSegment source

/-- `ResolvedLocalSpaceErrorReportingConfig` (types.ts).  The
`onThresholdReached` callback capability is represented by whether it is
configured; its invocations are counted in the client state. -/
structure ResolvedLocalSpaceErrorReportingConfig where
  enabled : Bool
  secureEndpointOnly : Bool
  maxMessageLength : Nat
  maxStackLength : Nat
  maxComponentStackLength : Nat
  maxContextDepth : Nat
  maxContextBreadth : Nat
  maxTagCount : Nat
  thresholdCount : Nat
  thresholdWindowMs : Nat
  redactKeys : List String
  onThresholdConfigured : Bool
deriving DecidableEq, Repr

/-- `ResolvedLocalSpaceAnalyticsConfig` (types.ts).  The transport and
`onError` callback capabilities are external: transport outcomes are supplied
to `flushComplete`, and `onError` is represented by whether it is configured,
with invocations counted in the client state.  `headers` and the
payload body are not inspected by any claim and are omitted. -/
structure ResolvedLocalSpaceAnalyticsConfig where
  endpoint : Option String
  source : String
  channel : AnalyticsChannel
  runtime : AnalyticsRuntime
  sessionId : String
  injectChannelContext : Bool
  enabled : Bool
  defaultContext : AnalyticsContext
  flushIntervalMs : Nat
  batchSize : Nat
  maxQueueSize : Nat
  storageKey : String
  errorReporting : ResolvedLocalSpaceErrorReportingConfig
  onErrorConfigured : Bool
deriving DecidableEq, Repr

/-- `resolveStorageKey` (client.ts lines 286-310): an explicit non-empty key
wins; otherwise the default key derived from `(channel, sanitized source)`,
except that an update whose previous key differs from the previous default
keeps the previous key. -/
def resolveStorageKey (configStorageKey : Option String) (source : String)
    (channel : AnalyticsChannel)
    (previous : Option ResolvedLocalSpaceAnalyticsConfig) : String :=
  let explicitStorageKey := (configStorageKey.map jsTrim).getD ""
  if explicitStorageKey ≠ "" then explicitStorageKey
  else
    let defaultStorageKey := buildDefaultStorageKey source channel
    match previous with
    | none => defaultStorageKey
    | some prev =>
      let previousDefaultStorageKey := buildDefaultStorageKey prev.source prev.channel
      if prev.storageKey = previousDefaultStorageKey then defaultStorageKey
      else prev.storageKey

/-- `LocalSpaceErrorReportingConfig` (types.ts): user-supplied partial
error-reporting configuration (`none` = property absent). -/
structure LocalSpaceErrorReportingConfig where
  enabled : Option Bool
  secureEndpointOnly : Option Bool
  maxMessageLength : Option Int
  maxStackLength : Option Int
  maxComponentStackLength : Option Int
  maxContextDepth : Option Int
  maxContextBreadth : Option Int
  maxTagCount : Option Int
  thresholdCount : Option Int
  thresholdWindowMs : Option Int
  redactKeys : Option (List String)
  onThresholdConfigured : Option Bool
deriving DecidableEq, Repr

/-- `LocalSpaceAnalyticsConfig` (types.ts): user-supplied partial client
configuration (`none` = property absent).  Non-finite numeric inputs are not
representable in the `Int` model; `toPositiveInteger` sends them to the
fallback just like any non-positive value. -/
structure LocalSpaceAnalyticsConfig where
  endpoint : Option String
  source : Option String
  channel : Option AnalyticsChannel
  runtime : Option AnalyticsRuntime
  sessionId : Option String
  injectChannelContext : Option Bool
  enabled : Option Bool
  defaultContext : Option AnalyticsContext
  flushIntervalMs : Option Int
  batchSize : Option Int
  maxQueueSize : Option Int
  storageKey : Option String
  errorReporting : Option LocalSpaceErrorReportingConfig
  onErrorConfigured : Option Bool
deriving DecidableEq, Repr

/-- `toPositiveInteger` (client.ts): floor, then fall back unless positive. -/
def toPositiveInteger (value : Option Int) (fallback : Nat) : Nat :=
  match value with
  | none => fallback
  | some v => if v > 0 then v.toNat else fallback

/-- `toNumberWithMinimum` (client.ts). -/
def toNumberWithMinimum (value : Option Int) (fallback minimum : Nat) : Nat :=
  max (toPositiveInteger value fallback) minimum

/-- `DEFAULT_ERROR_REDACT_KEYS` (client.ts). -/
def DEFAULT_ERROR_REDACT_KEYS : List String :=
  ["email", "phone", "name", "address", "token", "password", "secret",
   "cookie", "session", "auth", "ssn", "dob", "user"]

/-- `Array.from(new Set(xs))`: de-duplication preserving first occurrence. -/
def dedupKeepFirstAux (seen : List String) : List String → List String
  | [] => []
  | x :: rest =>
    if seen.contains x then dedupKeepFirstAux seen rest
    else x :: dedupKeepFirstAux (x :: seen) rest

/-- `Array.from(new Set(xs))` with an empty starting set. -/
def dedupKeepFirst (xs : List String) : List String :=
  dedupKeepFirstAux [] xs

/-- `normalizeRedactKeys` (client.ts): trim/lowercase, drop empties, fall back
to the defaults when nothing is left, de-duplicate preserving first
occurrence. -/
def normalizeRedactKeys (keys previousKeys : Option (List String)) : List String :=
  let values := (keys.orElse fun _ => previousKeys).getD DEFAULT_ERROR_REDACT_KEYS
  let normalized := (values.map fun v => jsToLower (jsTrim v)).filter fun v => v.length > 0
  if normalized = [] then DEFAULT_ERROR_REDACT_KEYS else dedupKeepFirst normalized

/-- `resolveErrorReportingConfig` (client.ts lines 388-438). -/
def resolveErrorReportingConfig (config : Option LocalSpaceErrorReportingConfig)
    (previous : Option ResolvedLocalSpaceErrorReportingConfig) :
    ResolvedLocalSpaceErrorReportingConfig where
  enabled := ((config.bind (·.enabled)).orElse fun _ => previous.map (·.enabled)).getD true
  secureEndpointOnly :=
    ((config.bind (·.secureEndpointOnly)).orElse
      fun _ => previous.map (·.secureEndpointOnly)).getD true
  maxMessageLength :=
    toNumberWithMinimum
      ((config.bind (·.maxMessageLength)).orElse
        fun _ => previous.map (Int.ofNat ·.maxMessageLength)) 240 16
  maxStackLength :=
    toNumberWithMinimum
      ((config.bind (·.maxStackLength)).orElse
        fun _ => previous.map (Int.ofNat ·.maxStackLength)) 1800 32
  maxComponentStackLength :=
    toNumberWithMinimum
      ((config.bind (·.maxComponentStackLength)).orElse
        fun _ => previous.map (Int.ofNat ·.maxComponentStackLength)) 1800 32
  maxContextDepth :=
    toNumberWithMinimum
      ((config.bind (·.maxContextDepth)).orElse
        fun _ => previous.map (Int.ofNat ·.maxContextDepth)) 4 1
  maxContextBreadth :=
    toNumberWithMinimum
      ((config.bind (·.maxContextBreadth)).orElse
        fun _ => previous.map (Int.ofNat ·.maxContextBreadth)) 20 1
  maxTagCount :=
    toNumberWithMinimum
      ((config.bind (·.maxTagCount)).orElse
        fun _ => previous.map (Int.ofNat ·.maxTagCount)) 10 1
  thresholdCount :=
    toNumberWithMinimum
      ((config.bind (·.thresholdCount)).orElse
        fun _ => previous.map (Int.ofNat ·.thresholdCount)) 5 1
  thresholdWindowMs :=
    toNumberWithMinimum
      ((config.bind (·.thresholdWindowMs)).orElse
        fun _ => previous.map (Int.ofNat ·.thresholdWindowMs)) 300000 1000
  redactKeys := normalizeRedactKeys (config.bind (·.redactKeys)) (previous.map (·.redactKeys))
  onThresholdConfigured :=
    ((config.bind (·.onThresholdConfigured)).orElse
      fun _ => previous.map (·.onThresholdConfigured)).getD false

/-- `resolveRuntime` (client.ts): explicit, else previous, else host
environment detection (`isBrowserEnvironment`, passed in as `env`). -/
def resolveRuntime (explicitRuntime previousRuntime : Option AnalyticsRuntime)
    (env : Bool) : AnalyticsRuntime :=
  match explicitRuntime with
  | some r => r
  | none =>
    match previousRuntime with
    | some r => r
    | none => if env then .browser else .server

/-- `resolveChannel` (client.ts): explicit, else previous, else derived from
the runtime. -/
def resolveChannel (explicitChannel : Option AnalyticsChannel)
    (runtime : AnalyticsRuntime) (previousChannel : Option AnalyticsChannel) :
    AnalyticsChannel :=
  match explicitChannel with
  | some c => c
  | none =>
    match previousChannel with
    | some c => c
    | none => if runtime = .server then .backend else .frontend

/-- `resolveSessionId` (client.ts): trimmed explicit id, else previous, else a
freshly generated id (`createId("session")`, host-supplied here). -/
def resolveSessionId (configSessionId previousSessionId : Option String)
    (freshSessionId : String) : String :=
  let explicitSessionId := (configSessionId.map jsTrim).getD ""
  if explicitSessionId ≠ "" then explicitSessionId
  else
    match previousSessionId with
    | some s => if s ≠ "" then s else freshSessionId
    | none => freshSessionId

/-- `resolveConfig` (client.ts lines 440-494).  Returns `none` where the
source code throws (`source` empty after trimming); `env` is the
`isBrowserEnvironment()` host probe and `freshSessionId` the generated
session id used when none is inherited. -/
def resolveConfig (config : LocalSpaceAnalyticsConfig)
    (previous : Option ResolvedLocalSpaceAnalyticsConfig) (env : Bool)
    (freshSessionId : String) : Option ResolvedLocalSpaceAnalyticsConfig :=
  let source := jsTrim ((config.source.orElse fun _ => previous.map (·.source)).getD "")
  if source = "" then none
  else
    let runtime := resolveRuntime config.runtime (previous.map (·.runtime)) env
    let channel := resolveChannel config.channel runtime (previous.map (·.channel))
    let endpointCandidate :=
      match config.endpoint with
      | some e => some e
      | none => previous.bind (·.endpoint)
    let endpoint := endpointCandidate.bind fun e => if jsTrim e = "" then none else some (jsTrim e)
    some
      { endpoint := endpoint
        source := source
        channel := channel
        runtime := runtime
        sessionId :=
          resolveSessionId config.sessionId (previous.map (·.sessionId)) freshSessionId
        injectChannelContext :=
          ((config.injectChannelContext).orElse
            fun _ => previous.map (·.injectChannelContext)).getD true
        enabled := ((config.enabled).orElse fun _ => previous.map (·.enabled)).getD true
        defaultContext :=
          AnalyticsContext.merge ((previous.map (·.defaultContext)).getD [])
            (config.defaultContext.getD [])
        flushIntervalMs :=
          toPositiveInteger
            ((config.flushIntervalMs).orElse
              fun _ => previous.map (Int.ofNat ·.flushIntervalMs)) 5000
        batchSize :=
          toPositiveInteger
            ((config.batchSize).orElse fun _ => previous.map (Int.ofNat ·.batchSize)) 20
        maxQueueSize :=
          toPositiveInteger
            ((config.maxQueueSize).orElse
              fun _ => previous.map (Int.ofNat ·.maxQueueSize)) 500
        storageKey := resolveStorageKey config.storageKey source channel previous
        errorReporting :=
          resolveErrorReportingConfig config.errorReporting (previous.map (·.errorReporting))
        onErrorConfigured :=
          ((config.onErrorConfigured).orElse
            fun _ => previous.map (·.onErrorConfigured)).getD false }

/-- The protocol/hostname pair the host URL parser extracts from an absolute
URL (`new URL(endpoint, base).protocol` / `.hostname`). -/
structure UrlParts where
  protocol : String
  hostname : String
deriving DecidableEq, Repr

/-- The host WHATWG URL parser, injected like every other host capability:
given the trimmed endpoint string, reports protocol and hostname, or `none`
where `new URL` throws.  (Relative endpoints never reach the parser: the
`startsWith "/"` branch of `isSecureEndpoint` returns first.) -/
def UrlParser := String → Option UrlParts

/-- `LOCALHOST_HOSTS` (client.ts). -/
def LOCALHOST_HOSTS : List String := ["localhost", "127.0.0.1", "::1"]

/-- `isSecureEndpoint` (client.ts lines 1097-1120): empty ⇒ false; a
relative path (leading `/`) ⇒ true; otherwise https, or http to a loopback
host; a URL parse failure ⇒ false. -/
def isSecureEndpoint (parse : UrlParser) (endpoint : String) : Bool :=
  let trimmedEndpoint := jsTrim endpoint
  if trimmedEndpoint = "" then false
  else if jsStartsWith trimmedEndpoint "/" then true
  else
    match parse trimmedEndpoint with
    | none => false
    | some parsedUrl =>
      if parsedUrl.protocol = "https:" then true
      else parsedUrl.protocol = "http:" && LOCALHOST_HOSTS.contains parsedUrl.hostname

/-- The external/host pieces of the text-sanitization pipeline, injected like
the transport capability:

* `redact` is `redactSensitiveText` — five `String.prototype.replace` calls
  against host regular expressions (emails, bearer tokens, JWT triples, long
  digit runs, sensitive query parameters);
* `schemaLog` is `applySchemaLogHandling` — `sanitizeForLog` of the external
  `@plasius/schema` PII capability (`sensitive` flag selects the schema);
* `serializeErrorObj` is `safeSerialize` applied to a
  `{ name, message, stack }` object (host `JSON.stringify`);
* `prepareIdentity` is `CrashIdentitySchema.prepareForStorage` applied to the
  crash-identity payload — the external PII capability's storage-prep
  transform, whose sealed result no claim inspects.

Every claim below holds for all values of these capabilities. -/
structure SanitizeCapabilities where
  redact : String → String
  schemaLog : String → Bool → String
  serializeErrorObj : String → String → Option String → String
  prepareIdentity : List (String × String) → String

/-- `REDACTED_VALUE` (client.ts): the schema's redaction of `"sensitive"`,
falling back to `"[REDACTED]"` when the schema yields an empty string. -/
def REDACTED_VALUE (cap : SanitizeCapabilities) : String :=
  let v := cap.schemaLog "sensitive" true
  if v = "" then "[REDACTED]" else v

/-- `replace(/[\u0000-\u001F\u007F]/g, " ")`: control characters to spaces. -/
def stripControlChars (s : String) : String :=
  String.mk (s.data.map fun c => if c.toNat ≤ 31 || c.toNat = 127 then ' ' else c)

mutual

/-- `replace(/\s+/g, " ")`: each maximal whitespace run becomes one space. -/
def collapseWs : List Char → List Char
  | [] => []
  | c :: rest =>
    if c.isWhitespace then ' ' :: skipWs rest else c :: collapseWs rest

/-- Skip the remainder of a whitespace run. -/
def skipWs : List Char → List Char
  | [] => []
  | c :: rest =>
    if c.isWhitespace then skipWs rest else c :: collapseWs rest

end

/-- `sanitizeSingleLine` (client.ts lines 541-554): strip control characters,
collapse whitespace, trim; empty stays empty; otherwise redact, cap the
length, apply the schema log handling, cap again. -/
def sanitizeSingleLine (cap : SanitizeCapabilities) (value : String)
    (maxLength : Nat) : String :=
  let flattened := jsTrim (String.mk (collapseWs (stripControlChars value).data))
  if flattened = "" then ""
  else
    let redacted := jsSlice (cap.redact flattened) maxLength
    jsSlice (cap.schemaLog redacted false) maxLength

/-- `replace(/\r\n/g, "\n").replace(/\r/g, "\n")`. -/
def normalizeNewlines : List Char → List Char
  | [] => []
  | '\r' :: '\n' :: rest => '\n' :: normalizeNewlines rest
  | '\r' :: rest => '\n' :: normalizeNewlines rest
  | c :: rest => c :: normalizeNewlines rest

/-- `sanitizeMultiline` (client.ts lines 556-571): normalize newlines, redact,
trim every line, drop blank lines, rejoin; empty stays empty; otherwise apply
the schema log handling and cap the length. -/
def sanitizeMultiline (cap : SanitizeCapabilities) (value : String)
    (maxLength : Nat) : String :=
  let normalized := String.mk (normalizeNewlines value.data)
  let sanitized :=
    String.intercalate "\n"
      (((splitOnChar '\n' (cap.redact normalized)).map jsTrim).filter
        fun line => line.length > 0)
  if sanitized = "" then "" else jsSlice (cap.schemaLog sanitized false) maxLength

/-- The dynamically typed `error` value handed to `reportError`
(`LocalSpaceErrorReportInput.error : unknown`), split along the cases
`extractErrorDetails` distinguishes: a native `Error` instance, a string, a
plain object (with its `safeSerialize` JSON text for the message fallback),
or any other value (with its `String(...)` coercion). -/
inductive JsErrorValue where
  | errObj (name message : String) (stack : Option String)
  | strVal (s : String)
  | plainObj (name message stack : Option String) (serialized : String)
  | unknownVal (stringified : String)
deriving DecidableEq, Repr

/-- The `{ name, message, stack? }` triple `extractErrorDetails` returns. -/
structure ExtractedErrorDetails where
  name : String
  message : String
  stack : Option String
deriving DecidableEq, Repr

/-- `extractErrorDetails` (client.ts lines 864-906). -/
def extractErrorDetails (cap : SanitizeCapabilities) :
    JsErrorValue → ExtractedErrorDetails
  | .errObj name message stack =>
    { name := if name = "" then "Error" else name
      message := if message = "" then "Unknown error" else message
      stack := stack }
  | .strVal s => { name := "Error", message := s, stack := none }
  | .plainObj name message stack serialized =>
    { name :=
        match name with
        | some n => if jsTrim n ≠ "" then n else "Error"
        | none => "Error"
      message :=
        match message with
        | some m => if jsTrim m ≠ "" then m else sanitizeSingleLine cap serialized 240
        | none => sanitizeSingleLine cap serialized 240
      stack := stack }
  | .unknownVal stringified =>
    { name := "UnknownError"
      message :=
        let m := sanitizeSingleLine cap stringified 240
        if m = "" then "Unknown error" else m
      stack := none }

/-- `normalizeTags` (client.ts lines 836-854). -/
def normalizeTags (cap : SanitizeCapabilities) (tags : Option (List String))
    (maxTagCount maxTagLength : Nat) : Option (List String) :=
  match tags with
  | none => none
  | some ts =>
    if ts = [] then none
    else
      let normalized :=
        (ts.map fun tag => sanitizeSingleLine cap tag maxTagLength).filter
          fun tag => tag.length > 0
      if normalized = [] then none
      else some ((dedupKeepFirst normalized).take maxTagCount)

/-- `LocalSpaceErrorReportInput` (types.ts): the `reportError` input. -/
structure LocalSpaceErrorReportInput where
  boundary : String
  error : JsErrorValue
  componentStack : Option String
  handled : Option Bool
  severity : Option AnalyticsErrorSeverity
  tags : Option (List String)
  context : Option AnalyticsContext
  channel : Option AnalyticsChannel
  timestamp : Option Int
deriving DecidableEq, Repr

/-- `normalizeErrorReport` (client.ts lines 908-958): sanitize every text
field, default the empties, and fingerprint the report with the rolling hash
of `boundary|name|message|first-stack-line|severity` unless a non-empty
pre-existing fingerprint survives sanitization. -/
def normalizeErrorReport (cap : SanitizeCapabilities)
    (resolvedErrorReporting : ResolvedLocalSpaceErrorReportingConfig)
    (report : LocalSpaceErrorReportInput) (existingFingerprint : Option String) :
    LocalSpaceAnalyticsErrorDetails :=
  let extractedError := extractErrorDetails cap report.error
  let boundary :=
    let b := sanitizeSingleLine cap report.boundary 100
    if b = "" then "UnknownErrorBoundary" else b
  let name :=
    let n := sanitizeSingleLine cap extractedError.name 80
    if n = "" then "Error" else n
  let message :=
    let m :=
      sanitizeSingleLine cap extractedError.message
        resolvedErrorReporting.maxMessageLength
    if m = "" then "Unknown error" else m
  let stack :=
    match extractedError.stack with
    | some s =>
      if s ≠ "" then
        some (sanitizeMultiline cap s resolvedErrorReporting.maxStackLength)
      else none
    | none => none
  let componentStack :=
    match report.componentStack with
    | some s =>
      if s ≠ "" then
        some (sanitizeMultiline cap s resolvedErrorReporting.maxComponentStackLength)
      else none
    | none => none
  let severity : AnalyticsErrorSeverity :=
    if report.severity = some .fatal then .fatal else .error
  let handled := report.handled.getD true
  let tags :=
    normalizeTags cap report.tags resolvedErrorReporting.maxTagCount
      resolvedErrorReporting.maxMessageLength
  let fingerprintBase :=
    boundary ++ "|" ++ name ++ "|" ++ message ++ "|"
      ++ ((stack.map fun s => (splitOnChar '\n' s).headD "").getD "") ++ "|"
      ++ severity.toStr
  let fallbackFingerprint := "err_" ++ hexString (hashString fingerprintBase)
  let fingerprint :=
    let ef :=
      match existingFingerprint with
      | some s => sanitizeSingleLine cap s 120
      | none => ""
    if ef = "" then fallbackFingerprint else ef
  { boundary := boundary
    name := name
    message := message
    fingerprint := fingerprint
    handled := handled
    severity := severity
    stack := stack
    componentStack := componentStack
    tags := tags }

/-- The persisted JSON shape of an error-detail object: every field may be
absent (or, equivalently for the structural checks, wrongly typed). -/
structure StoredErrorDetails where
  boundary : Option String
  name : Option String
  message : Option String
  fingerprint : Option String
  handled : Option Bool
  severity : Option String
  stack : Option String
  componentStack : Option String
  tags : Option (List String)
deriving DecidableEq, Repr

/-- `isErrorDetailsCandidate` (client.ts): boundary, name, message and
fingerprint must be present strings. -/
def isErrorDetailsCandidate (value : StoredErrorDetails) : Bool :=
  value.boundary.isSome && value.name.isSome && value.message.isSome
    && value.fingerprint.isSome

/-- `normalizeStoredErrorDetails` (client.ts lines 960-980): re-run
`normalizeErrorReport` over the stored fields (the error re-enters as a plain
`{ name, message, stack }` object), keeping the stored fingerprint. -/
def normalizeStoredErrorDetails (cap : SanitizeCapabilities)
    (resolvedErrorReporting : ResolvedLocalSpaceErrorReportingConfig)
    (value : StoredErrorDetails) : LocalSpaceAnalyticsErrorDetails :=
  normalizeErrorReport cap resolvedErrorReporting
    { boundary := value.boundary.getD ""
      error :=
        .plainObj value.name value.message value.stack
          (cap.serializeErrorObj (value.name.getD "") (value.message.getD "")
            value.stack)
      componentStack := value.componentStack
      handled := value.handled
      severity := if value.severity = some "fatal" then some .fatal else none
      tags := value.tags
      context := none
      channel := none
      timestamp := none }
    value.fingerprint

/-- The persisted JSON shape of a queued record: every field may be absent. -/
structure StoredRecord where
  id : Option String
  component : Option String
  action : Option String
  source : Option String
  sessionId : Option String
  timestamp : Option Int
  kind : Option String
  channel : Option String
  runtime : Option String
  label : Option String
  href : Option String
  variant : Option String
  requestId : Option String
  context : Option AnalyticsContext
  error : Option StoredErrorDetails
deriving DecidableEq, Repr

/-- `isStoredRecordCandidate` (client.ts lines 496-510): id, component,
action, source and sessionId must be present strings and timestamp a present
number. -/
def isStoredRecordCandidate (value : StoredRecord) : Bool :=
  value.id.isSome && value.component.isSome && value.action.isSome
    && value.source.isSome && value.sessionId.isSome && value.timestamp.isSome

/-- The serialized (`JSON.stringify`) form of an error-detail structure:
present fields stay, absent optionals are dropped. -/
def LocalSpaceAnalyticsErrorDetails.toStored
    (d : LocalSpaceAnalyticsErrorDetails) : StoredErrorDetails where
  boundary := some d.boundary
  name := some d.name
  message := some d.message
  fingerprint := some d.fingerprint
  handled := some d.handled
  severity := some d.severity.toStr
  stack := d.stack
  componentStack := d.componentStack
  tags := d.tags

/-- The serialized (`JSON.stringify`) form of a queued record, i.e. what a
later `JSON.parse` of the persisted snapshot yields for it. -/
def LocalSpaceAnalyticsRecord.toStored (r : LocalSpaceAnalyticsRecord) :
    StoredRecord where
  id := some r.id
  component := some r.component
  action := some r.action
  source := some r.source
  sessionId := some r.sessionId
  timestamp := some r.timestamp
  kind := some r.kind.toStr
  channel := some r.channel.toStr
  runtime := some r.runtime.toStr
  label := r.label
  href := r.href
  variant := r.variant
  requestId := r.requestId
  context := some r.context
  error := r.error.map (·.toStored)

/-- `normalizeStoredRecord` (client.ts lines 982-1016): default a non-object
context to `{}`, unknown channel/runtime/kind to the current config, and
re-normalize a candidate error-detail object of an error-kind record. -/
def normalizeStoredRecord (cap : SanitizeCapabilities)
    (value : StoredRecord) (fallbackConfig : ResolvedLocalSpaceAnalyticsConfig) :
    LocalSpaceAnalyticsRecord :=
  let context := value.context.getD []
  let channel : AnalyticsChannel :=
    match value.channel with
    | some "frontend" => .frontend
    | some "backend" => .backend
    | _ => fallbackConfig.channel
  let runtime : AnalyticsRuntime :=
    match value.runtime with
    | some "browser" => .browser
    | some "server" => .server
    | _ => fallbackConfig.runtime
  let kind : AnalyticsEventKind :=
    if value.kind = some "error" then .error else .interaction
  let errorDetails :=
    match value.error with
    | some e =>
      if kind = .error && isErrorDetailsCandidate e then
        some (normalizeStoredErrorDetails cap fallbackConfig.errorReporting e)
      else none
    | none => none
  { id := value.id.getD ""
    component := value.component.getD ""
    action := value.action.getD ""
    source := value.source.getD ""
    sessionId := value.sessionId.getD ""
    timestamp := value.timestamp.getD 0
    kind := kind
    channel := channel
    runtime := runtime
    label := value.label
    href := value.href
    variant := value.variant
    requestId := value.requestId
    context := context
    error := errorDetails }

/-- The synchronous key-value store (`window.localStorage`), holding parsed
queue snapshots keyed by storage key. -/
abbrev Storage := List (String × List StoredRecord)

/-- `localStorage.getItem` followed by `JSON.parse`. -/
def Storage.get (st : Storage) (key : String) : Option (List StoredRecord) :=
  List.lookup key st

/-- `localStorage.setItem`. -/
def Storage.set (st : Storage) (key : String) (value : List StoredRecord) :
    Storage :=
  (st.filter fun kv => kv.1 ≠ key) ++ [(key, value)]

/-- `localStorage.removeItem`. -/
def Storage.remove (st : Storage) (key : String) : Storage :=
  st.filter fun kv => kv.1 ≠ key

/-- `writeQueue` (client.ts lines 1045-1060): an empty queue removes the key
instead of persisting an empty array; otherwise the serialized queue is
written.  (Quota failures are swallowed in the source and not modelled.) -/
def writeQueue (storage : Storage) (storageKey : String)
    (queue : List LocalSpaceAnalyticsRecord) : Storage :=
  if queue = [] then storage.remove storageKey
  else storage.set storageKey (queue.map (·.toStored))

/-- `readQueue` (client.ts lines 1018-1043): an absent key (or unparsable /
non-array value, not representable in the structured storage model) yields an
empty queue; otherwise entries failing structural validation are discarded
and the survivors normalized against the current config. -/
def readQueue (cap : SanitizeCapabilities) (storageKey : String)
    (fallbackConfig : ResolvedLocalSpaceAnalyticsConfig) (storage : Storage) :
    List LocalSpaceAnalyticsRecord :=
  match storage.get storageKey with
  | none => []
  | some parsed =>
    (parsed.filter isStoredRecordCandidate).map
      fun record => normalizeStoredRecord cap record fallbackConfig

/-- `LocalSpaceIssueReport` (types.ts). -/
structure LocalSpaceIssueReport where
  fingerprint : String
  boundary : String
  count : Nat
  firstSeen : Int
  lastSeen : Int
  severity : AnalyticsErrorSeverity
  sample : LocalSpaceAnalyticsErrorDetails
deriving DecidableEq, Repr

/-- `IssueAggregateState` (client.ts): the in-memory, windowed occurrence
state for one fingerprint. -/
structure IssueAggregateState where
  timestamps : List Int
  sample : LocalSpaceAnalyticsErrorDetails
  lastTriggeredAt : Option Int
deriving DecidableEq, Repr

/-- The in-memory issue map (`Map<string, IssueAggregateState>`), modelled as
an association list in insertion order. -/
abbrev IssueAggregates := List (String × IssueAggregateState)

/-- `Map.prototype.set`: update in place, or append a new key. -/
def aggSet (m : IssueAggregates) (key : String) (v : IssueAggregateState) :
    IssueAggregates :=
  if (List.lookup key m).isSome then
    m.map fun kv => if kv.1 = key then (key, v) else kv
  else m ++ [(key, v)]

/-- `Map.prototype.delete`. -/
def aggDelete (m : IssueAggregates) (key : String) : IssueAggregates :=
  m.filter fun kv => kv.1 ≠ key

/-- `pruneIssueState` (client.ts lines 1147-1150): drop timestamps before
`now - thresholdWindowMs` (the kept ones satisfy `timestamp >= windowStart`). -/
def pruneTimestamps (thresholdWindowMs : Nat) (now : Int) (timestamps : List Int) :
    List Int :=
  timestamps.filter fun timestamp => timestamp ≥ now - (thresholdWindowMs : Int)

/-- `sort((a, b) => a - b)`: ascending insertion sort on timestamps. -/
def insertSortedInt (x : Int) : List Int → List Int
  | [] => [x]
  | y :: rest => if x ≤ y then x :: y :: rest else y :: insertSortedInt x rest

/-- Ascending sort of a timestamp list. -/
def sortInts (l : List Int) : List Int :=
  l.foldr insertSortedInt []

/-- `buildIssueReport` (client.ts lines 1152-1171): `none` for an empty
aggregate, else a snapshot with sorted first/last seen (`now` stands for the
unreachable `Date.now()` fallbacks on a non-empty sorted list). -/
def buildIssueReport (fingerprint : String) (state : IssueAggregateState)
    (now : Int) : Option LocalSpaceIssueReport :=
  if state.timestamps = [] then none
  else
    let sortedTimestamps := sortInts state.timestamps
    some
      { fingerprint := fingerprint
        boundary := state.sample.boundary
        count := sortedTimestamps.length
        firstSeen := sortedTimestamps.headD now
        lastSeen := sortedTimestamps.getLastD now
        severity := state.sample.severity
        sample := state.sample }

/-- `recordIssue` (client.ts lines 1173-1242): append the occurrence, prune
the window, drop an emptied aggregate, and — only for `triggerThreshold` and a
configured callback — fire the threshold callback when the pruned count has
reached `thresholdCount` and the per-fingerprint cooldown (`thresholdWindowMs`
since `lastTriggeredAt`) has elapsed.  Returns the updated map and whether
the callback was invoked. -/
def recordIssue (erCfg : ResolvedLocalSpaceErrorReportingConfig)
    (issueAggregates : IssueAggregates)
    (details : LocalSpaceAnalyticsErrorDetails) (timestamp : Int)
    (triggerThreshold : Bool) : IssueAggregates × Bool :=
  let afterInsert :=
    match List.lookup details.fingerprint issueAggregates with
    | none =>
      aggSet issueAggregates details.fingerprint
        { timestamps := [timestamp], sample := details, lastTriggeredAt := none }
    | some existingState =>
      aggSet issueAggregates details.fingerprint
        { existingState with
            timestamps := existingState.timestamps ++ [timestamp]
            sample := details }
  match List.lookup details.fingerprint afterInsert with
  | none => (afterInsert, false)
  | some state0 =>
    let pruned := pruneTimestamps erCfg.thresholdWindowMs timestamp state0.timestamps
    if pruned = [] then (aggDelete afterInsert details.fingerprint, false)
    else
      let afterPrune :=
        aggSet afterInsert details.fingerprint { state0 with timestamps := pruned }
      if !triggerThreshold then (afterPrune, false)
      else if !erCfg.onThresholdConfigured then (afterPrune, false)
      else if pruned.length < erCfg.thresholdCount then (afterPrune, false)
      else
        let fire :=
          (aggSet afterPrune details.fingerprint
            { state0 with timestamps := pruned, lastTriggeredAt := some timestamp },
           true)
        match state0.lastTriggeredAt with
        | some lastTriggeredAt =>
          if timestamp - lastTriggeredAt < (erCfg.thresholdWindowMs : Int) then
            (afterPrune, false)
          else fire
        | none => fire

/-- The ordering of `getIssueReports` output: descending count, then
descending recency. -/
def issueReportBefore (left right : LocalSpaceIssueReport) : Bool :=
  if right.count ≠ left.count then left.count > right.count
  else left.lastSeen ≥ right.lastSeen

/-- Insertion step of the report sort. -/
def insertReport (x : LocalSpaceIssueReport) :
    List LocalSpaceIssueReport → List LocalSpaceIssueReport
  | [] => [x]
  | y :: rest =>
    if issueReportBefore x y then x :: y :: rest else y :: insertReport x rest

/-- `getIssueReports` (client.ts lines 1244-1264): prune every aggregate,
drop the emptied ones, and return the reports sorted by descending count then
descending recency, together with the pruned map (the source prunes the map
in place). -/
def getIssueReports (erCfg : ResolvedLocalSpaceErrorReportingConfig)
    (issueAggregates : IssueAggregates) (now : Int) :
    List LocalSpaceIssueReport × IssueAggregates :=
  let prunedAggregates :=
    (issueAggregates.map fun kv =>
        (kv.1, { kv.2 with timestamps := pruneTimestamps erCfg.thresholdWindowMs now kv.2.timestamps }))
      |>.filter fun kv => kv.2.timestamps ≠ []
  let reports :=
    (prunedAggregates.filterMap fun kv => buildIssueReport kv.1 kv.2 now).foldr
      insertReport []
  (reports, prunedAggregates)

/-- `""`-falsiness of the resolved endpoint (`!resolvedConfig.endpoint`). -/
def endpointTruthy : Option String → Bool
  | none => false
  | some e => e ≠ ""

/-- The whole mutable closure state of one client
(`createLocalSpaceAnalyticsClient`), plus history variables counting the
externally observable capability invocations:

* `inFlight` — the `events` batch of the outstanding transport call, if any;
* `transportCalls` — how many times the transport capability was invoked;
* `onErrorCalls` — how many times the configured `onError` callback fired;
* `thresholdCalls` — how many times the threshold callback fired;
* `timerActive` / `listenersAttached` — the periodic `setInterval` timer and
  the `visibilitychange`/`pagehide` listeners. -/
structure ClientState where
  config : ResolvedLocalSpaceAnalyticsConfig
  queue : List LocalSpaceAnalyticsRecord
  storage : Storage
  isFlushing : Bool
  flushQueuedAfterCurrent : Bool
  isDestroyed : Bool
  issueAggregates : IssueAggregates
  inFlight : Option (List LocalSpaceAnalyticsRecord)
  transportCalls : Nat
  onErrorCalls : Nat
  thresholdCalls : Nat
  timerActive : Bool
  listenersAttached : Bool
deriving DecidableEq, Repr

/-- `persistQueue` (client.ts line 1137): rewrite the full queue under the
current storage key. -/
def persistQueue (st : ClientState) : ClientState :=
  { st with storage := writeQueue st.storage st.config.storageKey st.queue }

/-- `resolvedConfig.onError?.(...)`: invoke the error callback if configured. -/
def reportOnError (st : ClientState) : ClientState :=
  { st with
      onErrorCalls :=
        if st.config.onErrorConfigured then st.onErrorCalls + 1 else st.onErrorCalls }

/-- `trimQueue` (client.ts lines 1139-1145): keep the newest `maxQueueSize`
records, dropping from the front. -/
def trimQueueList (maxQueueSize : Nat) (queue : List LocalSpaceAnalyticsRecord) :
    List LocalSpaceAnalyticsRecord :=
  if queue.length ≤ maxQueueSize then queue
  else queue.drop (queue.length - maxQueueSize)

/-- `queue.slice(-n)` at construction (client.ts lines 1126-1128). -/
def sliceLastN (n : Nat) (l : List LocalSpaceAnalyticsRecord) :
    List LocalSpaceAnalyticsRecord :=
  l.drop (l.length - n)

/-- `recordIssue` applied inside the client: updates the aggregate map and
counts a threshold-callback invocation. -/
def recordIssueInState (st : ClientState)
    (details : LocalSpaceAnalyticsErrorDetails) (timestamp : Int)
    (triggerThreshold : Bool) : ClientState :=
  let result :=
    recordIssue st.config.errorReporting st.issueAggregates details timestamp
      triggerThreshold
  { st with
      issueAggregates := result.1
      thresholdCalls := st.thresholdCalls + (if result.2 then 1 else 0) }

/-- `canSendBatchToEndpoint` (client.ts lines 1280-1299): the gate passes when
there is no (truthy) endpoint, the secure-endpoint policy is off, or the
endpoint is secure; otherwise an error-free batch is exempt, and an
error-carrying batch is refused with an `onError` report. -/
def canSendBatchToEndpoint (parse : UrlParser) (st : ClientState)
    (events : List LocalSpaceAnalyticsRecord) : Bool × ClientState :=
  if !endpointTruthy st.config.endpoint
      || !st.config.errorReporting.secureEndpointOnly
      || isSecureEndpoint parse (st.config.endpoint.getD "") then (true, st)
  else if !(events.any fun event => event.kind = .error) then (true, st)
  else (false, reportOnError st)

/-- What the synchronous prefix of `flush` produced: the updated state,
whether the transport capability was invoked, and with which batch. -/
structure FlushStartResult where
  state : ClientState
  transportInvoked : Bool
  batch : Option (List LocalSpaceAnalyticsRecord)
deriving DecidableEq, Repr

/-- `flush` (client.ts lines 1334-1363), synchronous part: the guards, the
already-flushing coalescing branch (set `flushQueuedAfterCurrent`, return),
the batch-size prefix, the security gate, and — when everything passes —
marking the flush in flight and invoking the transport capability. -/
def flushStart (parse : UrlParser) (st : ClientState) : FlushStartResult :=
  if st.isDestroyed || !st.config.enabled || !endpointTruthy st.config.endpoint then
    ⟨st, false, none⟩
  else if st.queue = [] then ⟨st, false, none⟩
  else if st.isFlushing then ⟨{ st with flushQueuedAfterCurrent := true }, false, none⟩
  else
    let events := st.queue.take st.config.batchSize
    let gate := canSendBatchToEndpoint parse st events
    if gate.1 then
      ⟨{ gate.2 with
           isFlushing := true
           inFlight := some events
           transportCalls := gate.2.transportCalls + 1 },
        true, some events⟩
    else ⟨gate.2, false, none⟩

/-- What the completion of an awaited transport call produced: the updated
state, whether the `finally` block initiated a follow-up `flush`, and whether
that follow-up invoked the transport. -/
structure FlushCompleteResult where
  state : ClientState
  followUpInitiated : Bool
  followUpTransportInvoked : Bool
deriving DecidableEq, Repr

/-- `flush` (client.ts lines 1357-1379), continuation after the awaited
transport call settles: on success evict the delivered prefix and persist; on
failure report through `onError`; then (`finally`) clear the in-flight flag
and, if a retry was queued during the attempt and the queue is non-empty,
initiate exactly one follow-up `flush`. -/
def flushComplete (parse : UrlParser) (st : ClientState) (success : Bool) :
    FlushCompleteResult :=
  match st.inFlight with
  | none => ⟨st, false, false⟩
  | some events =>
    let afterSettle :=
      if success then persistQueue { st with queue := st.queue.drop events.length }
      else reportOnError st
    let afterFinally :=
      { afterSettle with isFlushing := false, inFlight := none }
    if afterFinally.flushQueuedAfterCurrent then
      let cleared := { afterFinally with flushQueuedAfterCurrent := false }
      if cleared.queue ≠ [] then
        let followUp := flushStart parse cleared
        ⟨followUp.state, true, followUp.transportInvoked⟩
      else ⟨cleared, false, false⟩
    else ⟨afterFinally, false, false⟩

/-- `enqueueRecord` (client.ts lines 1266-1278): append, trim, persist, route
error records to issue aggregation, and request a flush when the queue has
reached the batch size. -/
def enqueueRecord (parse : UrlParser) (st : ClientState)
    (record : LocalSpaceAnalyticsRecord) : ClientState :=
  let afterPush :=
    { st with queue := trimQueueList st.config.maxQueueSize (st.queue ++ [record]) }
  let afterPersist := persistQueue afterPush
  let afterIssues :=
    if record.kind = .error then
      match record.error with
      | some details => recordIssueInState afterPersist details record.timestamp true
      | none => afterPersist
    else afterPersist
  if afterIssues.queue.length ≥ afterIssues.config.batchSize then
    (flushStart parse afterIssues).state
  else afterIssues

/-- `createMergedContext` (client.ts lines 1075-1095). -/
def createMergedContext (config : ResolvedLocalSpaceAnalyticsConfig)
    (eventChannel : AnalyticsChannel) (eventContext : Option AnalyticsContext) :
    AnalyticsContext :=
  let mergedContext := AnalyticsContext.merge config.defaultContext (eventContext.getD [])
  if config.injectChannelContext then
    let withChannel :=
      if (mergedContext.get "analyticsChannel").isNone then
        mergedContext.set "analyticsChannel" (.str eventChannel.toStr)
      else mergedContext
    if (withChannel.get "analyticsRuntime").isNone then
      withChannel.set "analyticsRuntime" (.str config.runtime.toStr)
    else withChannel
  else mergedContext

/-- The record `track` (client.ts lines 1445-1474) constructs: channel
defaulted from config, request id kept only when a non-blank string, kind
defaulted to `interaction`, a candidate error-detail value re-normalized for
error-kind events, identity fields from the config, and the merged context. -/
def trackRecord (cap : SanitizeCapabilities)
    (config : ResolvedLocalSpaceAnalyticsConfig)
    (event : LocalSpaceAnalyticsEvent) (freshId : String) (now : Int) :
    LocalSpaceAnalyticsRecord :=
  let eventChannel := event.channel.getD config.channel
  let requestId :=
    match event.requestId with
    | some s => if jsTrim s ≠ "" then some (jsTrim s) else none
    | none => none
  let kind : AnalyticsEventKind :=
    if event.kind = some .error then .error else .interaction
  let normalizedError :=
    if kind = .error then
      event.error.map fun d =>
        normalizeStoredErrorDetails cap config.errorReporting d.toStored
    else none
  { id := freshId
    component := event.component
    action := event.action
    kind := kind
    channel := eventChannel
    runtime := config.runtime
    label := event.label
    href := event.href
    variant := event.variant
    requestId := requestId
    source := config.source
    sessionId := config.sessionId
    timestamp := event.timestamp.getD now
    context := createMergedContext config eventChannel event.context
    error := normalizedError }

/-- `track` (client.ts lines 1440-1477): build the record (fresh id and
`Date.now()` supplied by the host) and enqueue it; a no-op once destroyed or
disabled. -/
def track (parse : UrlParser) (cap : SanitizeCapabilities) (st : ClientState)
    (event : LocalSpaceAnalyticsEvent) (freshId : String) (now : Int) :
    ClientState :=
  if st.isDestroyed || !st.config.enabled then st
  else enqueueRecord parse st (trackRecord cap st.config event freshId now)

/-- `String.prototype.includes`. -/
def strIncludes (s sub : String) : Bool :=
  (s.data.tails).any fun t => sub.data.isPrefixOf t

/-- `shouldRedactContextKey` (client.ts lines 577-589): the lowered trimmed
key equals or contains one of the configured redact keys. -/
def shouldRedactContextKey (key : String)
    (resolvedErrorReporting : ResolvedLocalSpaceErrorReportingConfig) : Bool :=
  let loweredKey := jsToLower (jsTrim key)
  if loweredKey = "" then false
  else
    resolvedErrorReporting.redactKeys.any fun candidate =>
      loweredKey = candidate || strIncludes loweredKey candidate

/-- JavaScript `String(value ?? "")` over a shallow context value. -/
def ctxValToJsString : CtxVal → String
  | .str s => s
  | .num n => toString n
  | .bool b => if b then "true" else "false"
  | .strList l => String.intercalate "," l
  | .null => ""

/-- One entry of the collected sensitive-identifier list
(`CrashIdentifierEntry`, client.ts). -/
structure CrashIdentifierEntry where
  key : String
  value : String
deriving DecidableEq, Repr

/-- `toIdentifierValue` (client.ts lines 591-609) over shallow values. -/
def toIdentifierValue (cap : SanitizeCapabilities) (value : CtxVal)
    (maxLength : Nat) : String :=
  match value with
  | .null => "null"
  | .str s =>
    let v := sanitizeSingleLine cap s maxLength
    if v = "" then "empty" else v
  | .num n =>
    let v := sanitizeSingleLine cap (toString n) maxLength
    if v = "" then "empty" else v
  | .bool b =>
    let v := sanitizeSingleLine cap (if b then "true" else "false") maxLength
    if v = "" then "empty" else v
  | .strList l =>
    let v := sanitizeSingleLine cap (String.intercalate "," l) maxLength
    if v = "" then "empty" else v

/-- `pushIdentifier` (client.ts lines 611-625). -/
def pushIdentifier (cap : SanitizeCapabilities)
    (identifiers : List CrashIdentifierEntry) (keyPath : String) (value : CtxVal)
    (maxLength : Nat) : List CrashIdentifierEntry :=
  if jsTrim keyPath = "" then identifiers
  else
    identifiers
      ++ [{ key := sanitizeSingleLine cap keyPath 160
            value := toIdentifierValue cap value maxLength }]

/-- `sanitizeContextValue` (client.ts lines 627-726) restricted to the shallow
values of `CtxVal` (over which the depth bound, the breadth bound and the
identity-based visited set of the source are vacuous: a shallow value has no
children and a pure value has no aliasing). -/
def sanitizeContextValue (cap : SanitizeCapabilities)
    (resolvedErrorReporting : ResolvedLocalSpaceErrorReportingConfig) :
    CtxVal → CtxVal
  | .null => .null
  | .str s => .str (sanitizeSingleLine cap s resolvedErrorReporting.maxMessageLength)
  | .num n => .num n
  | .bool b => .bool b
  | .strList l =>
    .strList
      (l.map fun s => sanitizeSingleLine cap s resolvedErrorReporting.maxMessageLength)

/-- `sanitizeErrorContext` (client.ts lines 728-762): breadth-capped walk over
the top-level entries, replacing denylisted keys wholesale with the schema's
redaction (collecting them as identifiers) and sanitizing the other values. -/
def sanitizeErrorContext (cap : SanitizeCapabilities)
    (context : Option AnalyticsContext)
    (resolvedErrorReporting : ResolvedLocalSpaceErrorReportingConfig) :
    AnalyticsContext × List CrashIdentifierEntry :=
  match context with
  | none => ([], [])
  | some ctx =>
    (ctx.take resolvedErrorReporting.maxContextBreadth).foldl
      (fun acc kv =>
        if shouldRedactContextKey kv.1 resolvedErrorReporting then
          let handled := cap.schemaLog (ctxValToJsString kv.2) true
          (acc.1 ++ [(kv.1, .str (if handled = "" then REDACTED_VALUE cap else handled))],
           pushIdentifier cap acc.2 kv.1 kv.2 resolvedErrorReporting.maxMessageLength)
        else
          (acc.1 ++ [(kv.1, sanitizeContextValue cap resolvedErrorReporting kv.2)],
           acc.2))
      ([], [])

/-- `buildCrashIdentityPayload` (client.ts lines 784-824) as the key-value
pairs handed to the external storage-prep transform: the config identity
fields plus the breadth-capped identifier list.  The browser-only probes
(`navigator`, `screen`, `Intl`, `window.location`) are host values no claim
inspects and are not modelled. -/
def crashIdentityPayload (config : ResolvedLocalSpaceAnalyticsConfig)
    (identifiers : List CrashIdentifierEntry) : List (String × String) :=
  [("source", config.source), ("channel", config.channel.toStr),
   ("runtime", config.runtime.toStr), ("sessionId", config.sessionId)]
    ++ (if identifiers ≠ [] then
          (identifiers.take config.errorReporting.maxContextBreadth).map
            fun e => (e.key, e.value)
        else [])

/-- The report-time secure-endpoint gate of `reportError` (client.ts lines
1488-1492): refuse when the policy is on and a truthy endpoint is insecure. -/
def reportGateRefuses (parse : UrlParser)
    (config : ResolvedLocalSpaceAnalyticsConfig) : Bool :=
  config.errorReporting.secureEndpointOnly && endpointTruthy config.endpoint
    && !isSecureEndpoint parse (config.endpoint.getD "")

/-- `reportError` (client.ts lines 1479-1539): no-op when destroyed, disabled
or error reporting is off; refused (with an `onError` report) by the
report-time secure-endpoint gate; otherwise normalize, build the sanitized
error context plus crash-identity envelope, and enqueue an error-kind record
exactly like an interaction event. -/
def reportError (parse : UrlParser) (cap : SanitizeCapabilities)
    (st : ClientState) (report : LocalSpaceErrorReportInput) (freshId : String)
    (now : Int) : ClientState :=
  if st.isDestroyed || !st.config.enabled then st
  else if !st.config.errorReporting.enabled then st
  else if reportGateRefuses parse st.config then reportOnError st
  else
    let eventChannel := report.channel.getD st.config.channel
    let timestamp := report.timestamp.getD now
    let normalizedError :=
      normalizeErrorReport cap st.config.errorReporting report none
    let sanitized := sanitizeErrorContext cap report.context st.config.errorReporting
    let errorContext :=
      ((((sanitized.1.set "errorFingerprint" (.str normalizedError.fingerprint)).set
            "errorBoundary" (.str normalizedError.boundary)).set
          "errorSeverity" (.str normalizedError.severity.toStr)).set
        "errorHandled" (.bool normalizedError.handled)).set
        "clientIdentity"
        (.str (cap.prepareIdentity (crashIdentityPayload st.config sanitized.2)))
    let errorContext :=
      match normalizedError.tags with
      | some tags =>
        if tags ≠ [] then errorContext.set "errorTags" (.strList tags)
        else errorContext
      | none => errorContext
    let record : LocalSpaceAnalyticsRecord :=
      { id := freshId
        component := normalizedError.boundary
        action :=
          if normalizedError.handled then "error_boundary_caught"
          else "unhandled_error"
        kind := .error
        channel := eventChannel
        runtime := st.config.runtime
        label := some normalizedError.fingerprint
        href := none
        variant := none
        requestId := none
        source := st.config.source
        sessionId := st.config.sessionId
        timestamp := timestamp
        context := createMergedContext st.config eventChannel (some errorContext)
        error := some normalizedError }
    enqueueRecord parse st record

/-- The full `LocalSpaceErrorReportingConfig` view of an already-resolved
error-reporting config (what `{...resolvedConfig}` spreads into an update). -/
def errCfgAsInput (r : ResolvedLocalSpaceErrorReportingConfig) :
    LocalSpaceErrorReportingConfig where
  enabled := some r.enabled
  secureEndpointOnly := some r.secureEndpointOnly
  maxMessageLength := some (Int.ofNat r.maxMessageLength)
  maxStackLength := some (Int.ofNat r.maxStackLength)
  maxComponentStackLength := some (Int.ofNat r.maxComponentStackLength)
  maxContextDepth := some (Int.ofNat r.maxContextDepth)
  maxContextBreadth := some (Int.ofNat r.maxContextBreadth)
  maxTagCount := some (Int.ofNat r.maxTagCount)
  thresholdCount := some (Int.ofNat r.thresholdCount)
  thresholdWindowMs := some (Int.ofNat r.thresholdWindowMs)
  redactKeys := some r.redactKeys
  onThresholdConfigured := some r.onThresholdConfigured

/-- `{...resolvedConfig, ...nextConfig, source: nextConfig.source ??
resolvedConfig.source}` (client.ts lines 1572-1578): the update input in
which every property of the previously resolved config is present unless
overridden by the update.  In particular the previously resolved
`storageKey` is passed through as an explicit key. -/
def mergeConfigInput (cur : ResolvedLocalSpaceAnalyticsConfig)
    (next : LocalSpaceAnalyticsConfig) : LocalSpaceAnalyticsConfig where
  endpoint := next.endpoint.orElse fun _ => cur.endpoint
  source := some (next.source.getD cur.source)
  channel := next.channel.orElse fun _ => some cur.channel
  runtime := next.runtime.orElse fun _ => some cur.runtime
  sessionId := next.sessionId.orElse fun _ => some cur.sessionId
  injectChannelContext :=
    next.injectChannelContext.orElse fun _ => some cur.injectChannelContext
  enabled := next.enabled.orElse fun _ => some cur.enabled
  defaultContext := next.defaultContext.orElse fun _ => some cur.defaultContext
  flushIntervalMs :=
    next.flushIntervalMs.orElse fun _ => some (Int.ofNat cur.flushIntervalMs)
  batchSize := next.batchSize.orElse fun _ => some (Int.ofNat cur.batchSize)
  maxQueueSize := next.maxQueueSize.orElse fun _ => some (Int.ofNat cur.maxQueueSize)
  storageKey := next.storageKey.orElse fun _ => some cur.storageKey
  errorReporting :=
    next.errorReporting.orElse fun _ => some (errCfgAsInput cur.errorReporting)
  onErrorConfigured := next.onErrorConfigured.orElse fun _ => some cur.onErrorConfigured

/-- `startFlushTimer` (client.ts lines 1381-1394): clear any existing timer
and install a new one iff the client is enabled. -/
def startFlushTimer (st : ClientState) : ClientState :=
  { st with timerActive := st.config.enabled }

/-- `updateConfig` (client.ts lines 1566-1591): merge and re-resolve the
config (`none` where the resolver throws), migrate storage when the effective
storage key changed (old key cleared, queue persisted under the new key),
restart the timer, and request a flush when an endpoint is configured and the
queue is non-empty. -/
def updateConfig (parse : UrlParser) (st : ClientState)
    (nextConfig : LocalSpaceAnalyticsConfig) (env : Bool) : Option ClientState :=
  if st.isDestroyed then some st
  else
    let previousStorageKey := st.config.storageKey
    match resolveConfig (mergeConfigInput st.config nextConfig) (some st.config) env "" with
    | none => none
    | some resolved =>
      let afterResolve := { st with config := resolved }
      let afterMigrate :=
        if previousStorageKey ≠ resolved.storageKey then
          persistQueue
            { afterResolve with
                storage := writeQueue afterResolve.storage previousStorageKey [] }
        else afterResolve
      let afterTimer := startFlushTimer afterMigrate
      some
        (if endpointTruthy resolved.endpoint && afterTimer.queue ≠ [] then
          (flushStart parse afterTimer).state
        else afterTimer)

/-- `destroy` (client.ts lines 1597-1615): once only — set the destroyed
flag, stop the periodic timer, detach the lifecycle listeners, then invoke
`flush` one final time (which, the destroyed flag being already set, returns
without doing anything). -/
def destroy (parse : UrlParser) (st : ClientState) : ClientState :=
  if st.isDestroyed then st
  else
    let torndown :=
      { st with isDestroyed := true, timerActive := false, listenersAttached := false }
    (flushStart parse torndown).state

/-- `createLocalSpaceAnalyticsClient` (client.ts lines 1122-1145, 1416-1427):
resolve the config (`none` where the resolver throws), read and cap the
persisted queue, replay its error records into the issue aggregates without
triggering thresholds, attach lifecycle listeners in a browser environment,
and start the flush timer. -/
def createLocalSpaceAnalyticsClient (cap : SanitizeCapabilities)
    (config : LocalSpaceAnalyticsConfig) (env : Bool) (freshSessionId : String)
    (storage : Storage) : Option ClientState :=
  match resolveConfig config none env freshSessionId with
  | none => none
  | some resolved =>
    let queue := sliceLastN resolved.maxQueueSize (readQueue cap resolved.storageKey resolved storage)
    let aggregates :=
      queue.foldl
        (fun aggs record =>
          if record.kind = .error then
            match record.error with
            | some details =>
              (recordIssue resolved.errorReporting aggs details record.timestamp false).1
            | none => aggs
          else aggs)
        []
    some
      { config := resolved
        queue := queue
        storage := storage
        isFlushing := false
        flushQueuedAfterCurrent := false
        isDestroyed := false
        issueAggregates := aggregates
        inFlight := none
        transportCalls := 0
        onErrorCalls := 0
        thresholdCalls := 0
        timerActive := resolved.enabled
        listenersAttached := env }

/-- A sequence of `track` calls (event with its host-generated id and
`Date.now()` value), applied left to right. -/
def trackMany (parse : UrlParser) (cap : SanitizeCapabilities)
    (st : ClientState) (inputs : List (LocalSpaceAnalyticsEvent × String × Int)) :
    ClientState :=
  inputs.foldl (fun s i => track parse cap s i.1 i.2.1 i.2.2) st

/-- Host-name part of a simple absolute URL (up to the first `/ : ? #`). -/
def miniParseRest (protocol rest : String) : Option UrlParts :=
  let hostname := jsTakeWhile (fun c => c ≠ '/' && c ≠ ':' && c ≠ '?' && c ≠ '#') rest
  if hostname = "" then none else some { protocol := protocol, hostname := hostname }

/-- A concrete instance of the host WHATWG URL parser covering the plain
absolute http/https URLs used by the closed witnesses below. -/
def miniParseUrl : UrlParser := fun s =>
  if jsStartsWith s "https://" then miniParseRest "https:" (jsDropChars s 8)
  else if jsStartsWith s "http://" then miniParseRest "http:" (jsDropChars s 7)
  else none

/-- A concrete instance of the external text capabilities for the closed
witnesses: a regex pass that finds nothing sensitive and a schema whose log
handling passes plain text through. -/
def transparentCap : SanitizeCapabilities where
  redact := fun s => s
  schemaLog := fun s _ => s
  serializeErrorObj := fun n m _ => n ++ "|" ++ m
  prepareIdentity := fun _ => "sealed-identity"

/-- The resolved error-reporting defaults (no user overrides). -/
def defaultErrCfg : ResolvedLocalSpaceErrorReportingConfig :=
  resolveErrorReportingConfig none none

/-- A concrete resolved configuration for the closed witnesses. -/
def sampleConfig : ResolvedLocalSpaceAnalyticsConfig where
  endpoint := some "https://example.com/collect"
  source := "sharedcomponents"
  channel := .frontend
  runtime := .browser
  sessionId := "session_1"
  injectChannelContext := true
  enabled := true
  defaultContext := []
  flushIntervalMs := 60000
  batchSize := 20
  maxQueueSize := 500
  storageKey := "analytics-client-test-key"
  errorReporting := { defaultErrCfg with onThresholdConfigured := true }
  onErrorConfigured := true

/-- A concrete interaction record for the closed witnesses. -/
def sampleRecordA : LocalSpaceAnalyticsRecord where
  id := "event_a"
  component := "Header"
  action := "nav_click"
  kind := .interaction
  channel := .frontend
  runtime := .browser
  label := some "About"
  href := none
  variant := none
  requestId := none
  source := "sharedcomponents"
  sessionId := "session_1"
  timestamp := 100
  context := []
  error := none

/-- A second concrete interaction record for the closed witnesses. -/
def sampleRecordB : LocalSpaceAnalyticsRecord :=
  { sampleRecordA with id := "event_b", component := "Footer", timestamp := 200 }

/-- An idle, ready-to-flush client state for the closed witnesses. -/
def sampleReadyState : ClientState where
  config := sampleConfig
  queue := [sampleRecordA, sampleRecordB]
  storage := []
  isFlushing := false
  flushQueuedAfterCurrent := false
  isDestroyed := false
  issueAggregates := []
  inFlight := none
  transportCalls := 0
  onErrorCalls := 0
  thresholdCalls := 0
  timerActive := true
  listenersAttached := true

/-- The same client while its first flush's transport call is outstanding. -/
def sampleFlushingState : ClientState :=
  { sampleReadyState with
      isFlushing := true
      inFlight := some [sampleRecordA, sampleRecordB]
      transportCalls := 1 }

/-- The C6 scenario client: secure-endpoint-only error reporting against the
plain-http endpoint `http://example.com`, with an empty queue and no
aggregates. -/
def sampleInsecureConfig : ResolvedLocalSpaceAnalyticsConfig :=
  { sampleConfig with endpoint := some "http://example.com" }

/-- The C6 scenario client state. -/
def sampleInsecureState : ClientState :=
  { sampleReadyState with config := sampleInsecureConfig, queue := [] }

/-- A concrete `reportError` input for the closed witnesses. -/
def sampleReportInput : LocalSpaceErrorReportInput where
  boundary := "AppBoundary"
  error := .errObj "Error" "boom" none
  componentStack := none
  handled := none
  severity := none
  tags := none
  context := none
  channel := none
  timestamp := none

/-- The small-cap client for the C2 witness. -/
def sampleSmallState : ClientState :=
  { sampleReadyState with
      queue := []
      config := { sampleConfig with maxQueueSize := 2 } }

/-- A concrete interaction event for the closed witnesses. -/
def sampleEvent (c : String) : LocalSpaceAnalyticsEvent where
  component := c
  action := "click"
  kind := none
  channel := none
  label := none
  href := none
  variant := none
  requestId := none
  context := none
  error := none
  timestamp := some 1

/-- The three-call input sequence for the C2 witness. -/
def sampleInputs : List (LocalSpaceAnalyticsEvent × String × Int) :=
  [(sampleEvent "Header", "event_1", 10),
   (sampleEvent "Footer", "event_2", 20),
   (sampleEvent "Nav", "event_3", 30)]

/-- The timestamps the just-updated aggregate holds before pruning
(`recordIssue`'s insert step, read off the pre-state). -/
def issueTimestampsAfterInsert (issueAggregates : IssueAggregates)
    (details : LocalSpaceAnalyticsErrorDetails) (timestamp : Int) : List Int :=
  match List.lookup details.fingerprint issueAggregates with
  | none => [timestamp]
  | some existingState => existingState.timestamps ++ [timestamp]

/-- The last-threshold-fired timestamp of a fingerprint's aggregate. -/
def issueLastTriggered (issueAggregates : IssueAggregates)
    (fingerprint : String) : Option Int :=
  (List.lookup fingerprint issueAggregates).bind fun state => state.lastTriggeredAt

/-- A concrete normalized error-detail value for the closed witnesses. -/
def sampleErrDetails : LocalSpaceAnalyticsErrorDetails where
  boundary := "AppBoundary"
  name := "Error"
  message := "boom"
  fingerprint := "err_1"
  handled := true
  severity := .error
  stack := none
  componentStack := none
  tags := none

/-- The C4 witness configuration: `thresholdCount = 3`, default window,
threshold callback configured. -/
def sampleThresholdCfg : ResolvedLocalSpaceErrorReportingConfig :=
  { defaultErrCfg with thresholdCount := 3, onThresholdConfigured := true }

/-- The first line of a normalized error's stack, `""` when absent — the
stack component of the fingerprint base
(`stack?.split("\n")[0] ?? ""`). -/
def firstStackLine (d : LocalSpaceAnalyticsErrorDetails) : String :=
  (d.stack.map fun s => (splitOnChar '\n' s).headD "").getD ""

/-- An update input with every property absent. -/
def emptyPartialConfig : LocalSpaceAnalyticsConfig where
  endpoint := none
  source := none
  channel := none
  runtime := none
  sessionId := none
  injectChannelContext := none
  enabled := none
  defaultContext := none
  flushIntervalMs := none
  batchSize := none
  maxQueueSize := none
  storageKey := none
  errorReporting := none
  onErrorConfigured := none

/-- The C8 construction input: source and channel set, no explicit storage
key, no endpoint. -/
def sampleCreateInput : LocalSpaceAnalyticsConfig :=
  { emptyPartialConfig with
      source := some "sharedcomponents"
      channel := some .frontend
      runtime := some .browser
      sessionId := some "session_1" }

/-- The C8 witness update: an explicit new storage key. -/
def sampleKeyedUpdate : LocalSpaceAnalyticsConfig :=
  { emptyPartialConfig with storageKey := some "analytics-client-new-key" }

/-- The C8 witness state after the keyed update. -/
def sampleUpdatedState : ClientState :=
  (updateConfig miniParseUrl sampleReadyState sampleKeyedUpdate true).getD
    sampleReadyState

/-- The observable fields of a queued record per the round-trip contract:
id, component, action, source, sessionId, timestamp, label, href, variant
and context. -/
def observablyEqual (a b : LocalSpaceAnalyticsRecord) : Prop :=
  a.id = b.id ∧ a.component = b.component ∧ a.action = b.action
    ∧ a.source = b.source ∧ a.sessionId = b.sessionId ∧ a.timestamp = b.timestamp
    ∧ a.label = b.label ∧ a.href = b.href ∧ a.variant = b.variant
    ∧ a.context = b.context

/-- The C9 reconstruction input: same source as the ready client's config and
the same explicit storage key. -/
def sampleRoundInput : LocalSpaceAnalyticsConfig :=
  { sampleCreateInput with storageKey := some "analytics-client-test-key" }

/-- The client reconstructed over the storage left by tracking one more
event on the ready client. -/
def sampleRoundState : ClientState :=
  (createLocalSpaceAnalyticsClient transparentCap sampleRoundInput true
    "session_1"
    (track miniParseUrl transparentCap sampleReadyState (sampleEvent "Header")
      "event_r" 5000).storage).getD sampleReadyState

/-- Claim C10: for every endpoint string that, after trimming, begins with
`/`, `isSecureEndpoint` returns true, so both the report-time gate of
`reportError` and the batch-time gate `canSendBatchToEndpoint` accept a
relative-path endpoint unconditionally, independent of the page's protocol
or host (the URL parser is never consulted: the statement holds for every
parser). -/
theorem relative_endpoint_accepted (parse : UrlParser) (endpoint : String)
    (h : jsStartsWith (jsTrim endpoint) "/" = true) :
    isSecureEndpoint parse endpoint = true
    ∧ (∀ (st : ClientState) (events : List LocalSpaceAnalyticsRecord),
        st.config.endpoint = some endpoint →
        canSendBatchToEndpoint parse st events = (true, st))
    ∧ (∀ cfg : ResolvedLocalSpaceAnalyticsConfig,
        cfg.endpoint = some endpoint → reportGateRefuses parse cfg = false) := by
  have hsec : isSecureEndpoint parse endpoint = true := by
    unfold isSecureEndpoint
    have hne : ¬ (jsTrim endpoint = "") := by
      intro he
      rw [he] at h
      exact absurd h (by decide)
    simp [hne, h]
  refine ⟨hsec, ?_, ?_⟩
  · intro st events hep
    unfold canSendBatchToEndpoint
    rw [hep]
    simp [hsec]
  · intro cfg hep
    unfold reportGateRefuses
    rw [hep]
    simp [hsec]

/-- Witness for C10 at the concrete relative endpoint `/collect`. -/
theorem relative_endpoint_accepted_witness :
    (jsStartsWith (jsTrim "/collect") "/" = true)
    ∧ (isSecureEndpoint miniParseUrl "/collect" = true
       ∧ (∀ (st : ClientState) (events : List LocalSpaceAnalyticsRecord),
            st.config.endpoint = some "/collect" →
            canSendBatchToEndpoint miniParseUrl st events = (true, st))
       ∧ (∀ cfg : ResolvedLocalSpaceAnalyticsConfig,
            cfg.endpoint = some "/collect" →
            reportGateRefuses miniParseUrl cfg = false)) :=
  ⟨by decide, relative_endpoint_accepted miniParseUrl "/collect" (by decide)⟩

/-- Claim C1: a `flush` issued while a previous flush's transport call is
outstanding (`isFlushing`) only sets the pending-retry flag and returns
without invoking the transport, so at most one transport invocation is in
flight; and when the outstanding attempt completes, the `finally` block
initiates exactly one follow-up flush if and only if a pending retry was
requested during the attempt and the queue is non-empty at completion. -/
theorem flush_overlap_coalesced (parse : UrlParser) (st : ClientState)
    (hdes : st.isDestroyed = false) (hen : st.config.enabled = true)
    (hep : endpointTruthy st.config.endpoint = true)
    (hq : st.queue ≠ []) (hfl : st.isFlushing = true) :
    flushStart parse st
      = ⟨{ st with flushQueuedAfterCurrent := true }, false, none⟩
    ∧ ∀ (stc : ClientState) (events : List LocalSpaceAnalyticsRecord)
        (success : Bool),
        stc.inFlight = some events →
        (flushComplete parse stc success).followUpInitiated
          = (stc.flushQueuedAfterCurrent
              && !(if success then stc.queue.drop events.length
                   else stc.queue).isEmpty) := by
  constructor
  · unfold flushStart
    simp [hdes, hen, hep, hq, hfl]
  · intro stc events success hin
    unfold flushComplete
    rw [hin]
    cases success <;>
      cases hqp : stc.flushQueuedAfterCurrent <;>
        simp [persistQueue, reportOnError, hqp, List.isEmpty_iff] <;>
          split <;> simp_all

/-- Witness for C1 at a concrete in-flight client state. -/
theorem flush_overlap_coalesced_witness :
    (sampleFlushingState.isDestroyed = false
      ∧ sampleFlushingState.isFlushing = true
      ∧ sampleFlushingState.queue ≠ [])
    ∧ (flushStart miniParseUrl sampleFlushingState
        = ⟨{ sampleFlushingState with flushQueuedAfterCurrent := true },
            false, none⟩
      ∧ ∀ (stc : ClientState) (events : List LocalSpaceAnalyticsRecord)
          (success : Bool),
          stc.inFlight = some events →
          (flushComplete miniParseUrl stc success).followUpInitiated
            = (stc.flushQueuedAfterCurrent
                && !(if success then stc.queue.drop events.length
                     else stc.queue).isEmpty)) :=
  ⟨⟨rfl, rfl, by decide⟩,
    flush_overlap_coalesced miniParseUrl sampleFlushingState rfl rfl (by decide)
      (by decide) rfl⟩

/-- Dropping as many elements as a `take` prefix is dropping the prefix. -/
theorem drop_length_take {α : Type} (k : Nat) (q : List α) :
    q.drop (q.take k).length = q.drop k := by
  rcases Nat.le_total k q.length with h | h
  · simp [List.length_take, Nat.min_eq_left h]
  · simp [List.length_take, Nat.min_eq_right h, List.drop_eq_nil_of_le h,
      List.drop_length]

/-- Claim C3: when the awaited transport call of a flush attempt fails, the
queue and the persisted snapshot are exactly what they were when the
transport was invoked (no record evicted) and the configured error callback
is invoked once with the failure; when it succeeds, exactly the delivered
`batchSize` prefix is removed and the remainder is persisted. -/
theorem flush_completion_semantics (parse : UrlParser) (st : ClientState)
    (events : List LocalSpaceAnalyticsRecord)
    (hin : st.inFlight = some events)
    (hev : events = st.queue.take st.config.batchSize)
    (honerr : st.config.onErrorConfigured = true)
    (hpend : st.flushQueuedAfterCurrent = false) :
    (flushComplete parse st false).state.queue = st.queue
    ∧ (flushComplete parse st false).state.storage = st.storage
    ∧ (flushComplete parse st false).state.onErrorCalls = st.onErrorCalls + 1
    ∧ events ++ (flushComplete parse st true).state.queue = st.queue
    ∧ (flushComplete parse st true).state.queue = st.queue.drop events.length
    ∧ (flushComplete parse st true).state.storage
        = writeQueue st.storage st.config.storageKey
            (st.queue.drop events.length) := by
  have hdrop : st.queue.drop events.length = st.queue.drop st.config.batchSize := by
    rw [hev, drop_length_take]
  unfold flushComplete
  rw [hin]
  refine ⟨?_, ?_, ?_, ?_, ?_, ?_⟩ <;>
    simp [reportOnError, honerr, persistQueue, hpend, hdrop]
  rw [hev]
  simp [drop_length_take, List.take_append_drop]

/-- Witness for C3 at the concrete in-flight state. -/
theorem flush_completion_semantics_witness :
    (sampleFlushingState.inFlight = some [sampleRecordA, sampleRecordB]
      ∧ [sampleRecordA, sampleRecordB]
          = sampleFlushingState.queue.take sampleFlushingState.config.batchSize)
    ∧ ((flushComplete miniParseUrl sampleFlushingState false).state.queue
          = sampleFlushingState.queue
      ∧ (flushComplete miniParseUrl sampleFlushingState false).state.storage
          = sampleFlushingState.storage
      ∧ (flushComplete miniParseUrl sampleFlushingState false).state.onErrorCalls
          = sampleFlushingState.onErrorCalls + 1
      ∧ [sampleRecordA, sampleRecordB]
            ++ (flushComplete miniParseUrl sampleFlushingState true).state.queue
          = sampleFlushingState.queue
      ∧ (flushComplete miniParseUrl sampleFlushingState true).state.queue
          = sampleFlushingState.queue.drop [sampleRecordA, sampleRecordB].length
      ∧ (flushComplete miniParseUrl sampleFlushingState true).state.storage
          = writeQueue sampleFlushingState.storage
              sampleFlushingState.config.storageKey
              (sampleFlushingState.queue.drop
                [sampleRecordA, sampleRecordB].length)) :=
  ⟨⟨rfl, by decide⟩,
    flush_completion_semantics miniParseUrl sampleFlushingState
      [sampleRecordA, sampleRecordB] rfl (by decide) rfl rfl⟩

/-- The batch security gate only ever touches the `onError` counter. -/
theorem canSend_preserves (parse : UrlParser) (st : ClientState)
    (events : List LocalSpaceAnalyticsRecord) :
    (canSendBatchToEndpoint parse st events).2.queue = st.queue
    ∧ (canSendBatchToEndpoint parse st events).2.storage = st.storage
    ∧ (canSendBatchToEndpoint parse st events).2.config = st.config
    ∧ (canSendBatchToEndpoint parse st events).2.isDestroyed = st.isDestroyed
    ∧ (canSendBatchToEndpoint parse st events).2.issueAggregates
        = st.issueAggregates := by
  unfold canSendBatchToEndpoint reportOnError
  repeat' split
  all_goals simp

/-- The synchronous prefix of `flush` never touches the queue, the store, the
config, the aggregates or the destroyed flag — it only moves flags and
counters. -/
theorem flushStart_preserves (parse : UrlParser) (st : ClientState) :
    (flushStart parse st).state.queue = st.queue
    ∧ (flushStart parse st).state.storage = st.storage
    ∧ (flushStart parse st).state.config = st.config
    ∧ (flushStart parse st).state.isDestroyed = st.isDestroyed
    ∧ (flushStart parse st).state.issueAggregates = st.issueAggregates := by
  have hp := canSend_preserves parse st (st.queue.take st.config.batchSize)
  unfold flushStart
  split
  · simp
  · split
    · simp
    · split
      · simp
      · dsimp only
        split <;> simp_all

/-- Counterexample to claim C7 at a concrete ready client (non-empty queue,
https endpoint, enabled): a plain `flush` from this state invokes the
transport, yet `destroy` — which sets the destroyed flag before its final
`flush` call — invokes no transport at all, so the final flush can never
deliver the remaining queued records. -/
theorem destroy_final_flush_counterexample :
    (flushStart miniParseUrl sampleReadyState).transportInvoked = true
    ∧ ¬ ((destroy miniParseUrl sampleReadyState).transportCalls
          > sampleReadyState.transportCalls) := by decide

/-- Claim C7 (amended): `destroy()` stops the periodic flush timer, detaches
the lifecycle listeners and invokes `flush` one final time, but because the
destroyed flag is set before that call the final flush returns immediately —
it cannot deliver anything (queue, store and transport-invocation count are
unchanged).  Every subsequent public call (`track`, `reportError`, `flush`,
`updateConfig`) is a no-op and a second `destroy()` has no further effect. -/
theorem destroy_behavior (parse : UrlParser) (st : ClientState)
    (hdes : st.isDestroyed = false) :
    (destroy parse st).isDestroyed = true
    ∧ (destroy parse st).timerActive = false
    ∧ (destroy parse st).listenersAttached = false
    ∧ (destroy parse st).queue = st.queue
    ∧ (destroy parse st).storage = st.storage
    ∧ (destroy parse st).transportCalls = st.transportCalls
    ∧ destroy parse (destroy parse st) = destroy parse st
    ∧ (∀ cap e freshId now,
        track parse cap (destroy parse st) e freshId now = destroy parse st)
    ∧ (∀ cap rep freshId now,
        reportError parse cap (destroy parse st) rep freshId now = destroy parse st)
    ∧ flushStart parse (destroy parse st) = ⟨destroy parse st, false, none⟩
    ∧ (∀ next env, updateConfig parse (destroy parse st) next env
        = some (destroy parse st)) := by
  have hst : destroy parse st
      = { st with isDestroyed := true, timerActive := false, listenersAttached := false } := by
    unfold destroy flushStart
    simp [hdes]
  rw [hst]
  refine ⟨rfl, rfl, rfl, rfl, rfl, rfl, ?_, ?_, ?_, ?_, ?_⟩
  · unfold destroy
    simp
  · intro cap e freshId now
    unfold track
    simp
  · intro cap rep freshId now
    unfold reportError
    simp
  · unfold flushStart
    simp
  · intro next env
    unfold updateConfig
    simp

/-- Witness for the amended C7 at the concrete ready client state. -/
theorem destroy_behavior_witness :
    sampleReadyState.isDestroyed = false
    ∧ ((destroy miniParseUrl sampleReadyState).isDestroyed = true
      ∧ (destroy miniParseUrl sampleReadyState).timerActive = false
      ∧ (destroy miniParseUrl sampleReadyState).listenersAttached = false
      ∧ (destroy miniParseUrl sampleReadyState).queue = sampleReadyState.queue
      ∧ (destroy miniParseUrl sampleReadyState).storage = sampleReadyState.storage
      ∧ (destroy miniParseUrl sampleReadyState).transportCalls
          = sampleReadyState.transportCalls
      ∧ destroy miniParseUrl (destroy miniParseUrl sampleReadyState)
          = destroy miniParseUrl sampleReadyState
      ∧ (∀ cap e freshId now,
          track miniParseUrl cap (destroy miniParseUrl sampleReadyState) e freshId now
            = destroy miniParseUrl sampleReadyState)
      ∧ (∀ cap rep freshId now,
          reportError miniParseUrl cap (destroy miniParseUrl sampleReadyState) rep
              freshId now
            = destroy miniParseUrl sampleReadyState)
      ∧ flushStart miniParseUrl (destroy miniParseUrl sampleReadyState)
          = ⟨destroy miniParseUrl sampleReadyState, false, none⟩
      ∧ (∀ next env,
          updateConfig miniParseUrl (destroy miniParseUrl sampleReadyState) next env
            = some (destroy miniParseUrl sampleReadyState))) :=
  ⟨rfl, destroy_behavior miniParseUrl sampleReadyState rfl⟩

/-- Counterexample to claim C6: with `secureEndpointOnly = true` and endpoint
`http://example.com`, `reportError` does not record the report locally — the
record is not appended to the queue and `getIssueReports` does not reflect
the occurrence (the gate returns before anything is recorded). -/
theorem report_insecure_counterexample :
    ¬ (((reportError miniParseUrl transparentCap sampleInsecureState
            sampleReportInput "event_x" 0).queue.length
          = sampleInsecureState.queue.length + 1)
        ∧ ((getIssueReports sampleInsecureConfig.errorReporting
              (reportError miniParseUrl transparentCap sampleInsecureState
                  sampleReportInput "event_x" 0).issueAggregates 0).1
            ≠ [])) := by decide

/-- Claim C6 (amended): when error reporting is enabled but the report-time
secure-endpoint gate refuses (secureEndpointOnly with a truthy insecure
endpoint), `reportError` invokes the error callback and returns without
recording anything: queue, aggregates, store and transport-invocation count
are all unchanged, so the report is neither recorded locally nor ever
delivered. -/
theorem report_insecure_gate_drops (parse : UrlParser)
    (cap : SanitizeCapabilities) (st : ClientState)
    (report : LocalSpaceErrorReportInput) (freshId : String) (now : Int)
    (hdes : st.isDestroyed = false) (hen : st.config.enabled = true)
    (her : st.config.errorReporting.enabled = true)
    (hgate : reportGateRefuses parse st.config = true) :
    reportError parse cap st report freshId now = reportOnError st
    ∧ (reportError parse cap st report freshId now).queue = st.queue
    ∧ (reportError parse cap st report freshId now).issueAggregates
        = st.issueAggregates
    ∧ (reportError parse cap st report freshId now).storage = st.storage
    ∧ (reportError parse cap st report freshId now).transportCalls
        = st.transportCalls := by
  have h : reportError parse cap st report freshId now = reportOnError st := by
    unfold reportError
    simp [hdes, hen, her, hgate]
  rw [h]
  simp [reportOnError]

/-- Witness for the amended C6 at the concrete insecure-endpoint state. -/
theorem report_insecure_gate_drops_witness :
    (sampleInsecureState.config.errorReporting.enabled = true
      ∧ reportGateRefuses miniParseUrl sampleInsecureState.config = true)
    ∧ (reportError miniParseUrl transparentCap sampleInsecureState
          sampleReportInput "event_x" 0 = reportOnError sampleInsecureState
      ∧ (reportError miniParseUrl transparentCap sampleInsecureState
            sampleReportInput "event_x" 0).queue = sampleInsecureState.queue
      ∧ (reportError miniParseUrl transparentCap sampleInsecureState
            sampleReportInput "event_x" 0).issueAggregates
          = sampleInsecureState.issueAggregates
      ∧ (reportError miniParseUrl transparentCap sampleInsecureState
            sampleReportInput "event_x" 0).storage = sampleInsecureState.storage
      ∧ (reportError miniParseUrl transparentCap sampleInsecureState
            sampleReportInput "event_x" 0).transportCalls
          = sampleInsecureState.transportCalls) :=
  ⟨⟨rfl, by decide⟩,
    report_insecure_gate_drops miniParseUrl transparentCap sampleInsecureState
      sampleReportInput "event_x" 0 rfl rfl rfl (by decide)⟩

/-- `trimQueue` always equals keeping the newest-`k` suffix. -/
theorem trimQueueList_eq_drop (k : Nat) (q : List LocalSpaceAnalyticsRecord) :
    trimQueueList k q = q.drop (q.length - k) := by
  unfold trimQueueList
  split
  · rename_i h
    rw [Nat.sub_eq_zero_of_le h, List.drop_zero]
  · rfl

/-- Trimming after appending to an already-trimmed queue is the same as
trimming the whole appended sequence. -/
theorem trimQueueList_append (k : Nat) (l l' : List LocalSpaceAnalyticsRecord) :
    trimQueueList k (trimQueueList k l ++ l') = trimQueueList k (l ++ l') := by
  simp only [trimQueueList_eq_drop, List.length_append, List.length_drop]
  rw [show l.drop (l.length - k) ++ l' = (l ++ l').drop (l.length - k) from
      (List.drop_append_of_le_length (Nat.sub_le _ _)).symm,
    List.drop_drop]
  congr 1
  omega

/-- A trimmed non-empty append stays non-empty when the cap is positive. -/
theorem trimQueueList_append_ne_nil (k : Nat) (hk : 1 ≤ k)
    (q : List LocalSpaceAnalyticsRecord) (r : LocalSpaceAnalyticsRecord) :
    trimQueueList k (q ++ [r]) ≠ [] := by
  rw [trimQueueList_eq_drop]
  intro h
  have := congrArg List.length h
  simp [List.length_drop] at this
  omega

/-- Look up the key just appended behind entries it was filtered out of. -/
theorem lookup_filter_append_self {b : Type} (l : List (String × b)) (k : String)
    (v : b) :
    List.lookup k ((l.filter fun kv => kv.1 ≠ k) ++ [(k, v)]) = some v := by
  induction l with
  | nil => simp [List.lookup]
  | cons a s ih =>
    rcases a with ⟨ka, va⟩
    by_cases h : ka = k
    · simpa [List.filter_cons, h] using ih
    · simpa [List.filter_cons, h, List.lookup,
        beq_eq_false_iff_ne.mpr (Ne.symm h)] using ih

/-- Appending one key behind a filter of that key leaves other keys alone. -/
theorem lookup_filter_append_ne {b : Type} (l : List (String × b))
    (k k' : String) (v : b) (h : k' ≠ k) :
    List.lookup k' ((l.filter fun kv => kv.1 ≠ k) ++ [(k, v)])
      = List.lookup k' l := by
  induction l with
  | nil => simp [List.lookup, beq_eq_false_iff_ne.mpr h]
  | cons a s ih =>
    rcases a with ⟨ka, va⟩
    by_cases hk : ka = k
    · subst hk
      simpa [List.filter_cons, List.lookup, beq_eq_false_iff_ne.mpr h] using ih
    · by_cases hk' : k' = ka
      · subst hk'
        simp [List.filter_cons, hk, List.lookup]
      · simpa [List.filter_cons, hk, List.lookup,
          beq_eq_false_iff_ne.mpr hk'] using ih

/-- A filtered-out key is not found. -/
theorem lookup_filter_self {b : Type} (l : List (String × b)) (k : String) :
    List.lookup k (l.filter fun kv => kv.1 ≠ k) = none := by
  induction l with
  | nil => rfl
  | cons a s ih =>
    rcases a with ⟨ka, va⟩
    by_cases h : ka = k
    · simpa [List.filter_cons, h] using ih
    · simpa [List.filter_cons, h, List.lookup,
        beq_eq_false_iff_ne.mpr (Ne.symm h)] using ih

/-- Filtering one key out leaves lookups of other keys alone. -/
theorem lookup_filter_ne {b : Type} (l : List (String × b)) (k k' : String)
    (h : k' ≠ k) :
    List.lookup k' (l.filter fun kv => kv.1 ≠ k) = List.lookup k' l := by
  induction l with
  | nil => rfl
  | cons a s ih =>
    rcases a with ⟨ka, va⟩
    by_cases hk : ka = k
    · subst hk
      simpa [List.filter_cons, List.lookup, beq_eq_false_iff_ne.mpr h] using ih
    · by_cases hk' : k' = ka
      · subst hk'
        simp [List.filter_cons, hk, List.lookup]
      · simpa [List.filter_cons, hk, List.lookup,
          beq_eq_false_iff_ne.mpr hk'] using ih

/-- `setItem` followed by `getItem` on the same key. -/
theorem storage_get_set (s : Storage) (k : String) (v : List StoredRecord) :
    Storage.get (Storage.set s k v) k = some v :=
  lookup_filter_append_self s k v

/-- `setItem` leaves other keys untouched. -/
theorem storage_get_set_ne (s : Storage) (k k' : String)
    (v : List StoredRecord) (h : k' ≠ k) :
    Storage.get (Storage.set s k v) k' = Storage.get s k' :=
  lookup_filter_append_ne s k k' v h

/-- `removeItem` followed by `getItem` on the same key. -/
theorem storage_get_remove (s : Storage) (k : String) :
    Storage.get (Storage.remove s k) k = none :=
  lookup_filter_self s k

/-- `removeItem` leaves other keys untouched. -/
theorem storage_get_remove_ne (s : Storage) (k k' : String) (h : k' ≠ k) :
    Storage.get (Storage.remove s k) k' = Storage.get s k' :=
  lookup_filter_ne s k k' h

/-- Projection form of `flushStart_preserves` for rewriting. -/
theorem flushStart_state_queue (parse : UrlParser) (st : ClientState) :
    (flushStart parse st).state.queue = st.queue :=
  (flushStart_preserves parse st).1

/-- Projection form of `flushStart_preserves` for rewriting. -/
theorem flushStart_state_storage (parse : UrlParser) (st : ClientState) :
    (flushStart parse st).state.storage = st.storage :=
  (flushStart_preserves parse st).2.1

/-- Projection form of `flushStart_preserves` for rewriting. -/
theorem flushStart_state_config (parse : UrlParser) (st : ClientState) :
    (flushStart parse st).state.config = st.config :=
  (flushStart_preserves parse st).2.2.1

/-- Projection form of `flushStart_preserves` for rewriting. -/
theorem flushStart_state_isDestroyed (parse : UrlParser) (st : ClientState) :
    (flushStart parse st).state.isDestroyed = st.isDestroyed :=
  (flushStart_preserves parse st).2.2.2.1

/-- `enqueueRecord` on queue, store, config and destroyed flag: append and
trim the queue, persist it, and leave config and destroyed flag alone
(issue aggregation and a possibly requested flush touch neither). -/
theorem enqueueRecord_effect (parse : UrlParser) (st : ClientState)
    (record : LocalSpaceAnalyticsRecord) :
    (enqueueRecord parse st record).config = st.config
    ∧ (enqueueRecord parse st record).isDestroyed = st.isDestroyed
    ∧ (enqueueRecord parse st record).queue
        = trimQueueList st.config.maxQueueSize (st.queue ++ [record])
    ∧ (enqueueRecord parse st record).storage
        = writeQueue st.storage st.config.storageKey
            (enqueueRecord parse st record).queue := by
  unfold enqueueRecord persistQueue recordIssueInState
  dsimp only
  repeat' split
  all_goals
    simp [flushStart_state_queue, flushStart_state_storage,
      flushStart_state_config, flushStart_state_isDestroyed]

/-- `track` on queue, store, config and destroyed flag. -/
theorem track_effect (parse : UrlParser) (cap : SanitizeCapabilities)
    (st : ClientState) (e : LocalSpaceAnalyticsEvent) (freshId : String)
    (now : Int) (hdes : st.isDestroyed = false) (hen : st.config.enabled = true) :
    (track parse cap st e freshId now).config = st.config
    ∧ (track parse cap st e freshId now).isDestroyed = false
    ∧ (track parse cap st e freshId now).queue
        = trimQueueList st.config.maxQueueSize
            (st.queue ++ [trackRecord cap st.config e freshId now])
    ∧ (track parse cap st e freshId now).storage
        = writeQueue st.storage st.config.storageKey
            (track parse cap st e freshId now).queue := by
  have he := enqueueRecord_effect parse st (trackRecord cap st.config e freshId now)
  unfold track
  simp only [hdes, hen]
  simpa [hdes] using he

/-- A trimmed queue never exceeds the cap. -/
theorem trimQueueList_length_le (k : Nat) (q : List LocalSpaceAnalyticsRecord) :
    (trimQueueList k q).length ≤ max k q.length := by
  rw [trimQueueList_eq_drop]
  simp only [List.length_drop]
  omega

/-- The fold of `track` calls: config and destroyed flag are preserved, the
queue is the trimmed append of all constructed records, the fold of nothing
is the identity, and after at least one call the persisted snapshot under the
storage key is exactly the final queue. -/
theorem trackMany_spec (parse : UrlParser) (cap : SanitizeCapabilities)
    (inputs : List (LocalSpaceAnalyticsEvent × String × Int)) :
    ∀ st : ClientState, st.isDestroyed = false → st.config.enabled = true →
      1 ≤ st.config.maxQueueSize →
      st.queue.length ≤ st.config.maxQueueSize →
      (trackMany parse cap st inputs).config = st.config
      ∧ (trackMany parse cap st inputs).isDestroyed = false
      ∧ (trackMany parse cap st inputs).queue
          = trimQueueList st.config.maxQueueSize
              (st.queue ++ inputs.map fun i => trackRecord cap st.config i.1 i.2.1 i.2.2)
      ∧ (inputs = [] → trackMany parse cap st inputs = st)
      ∧ (inputs ≠ [] →
          Storage.get (trackMany parse cap st inputs).storage st.config.storageKey
            = some ((trackMany parse cap st inputs).queue.map (·.toStored))) := by
  induction inputs with
  | nil =>
    intro st hdes hen hk hlen
    refine ⟨rfl, hdes, ?_, fun _ => rfl, fun h => absurd rfl h⟩
    show st.queue = trimQueueList st.config.maxQueueSize (st.queue ++ [])
    rw [List.append_nil]
    unfold trimQueueList
    rw [if_pos hlen]
  | cons i rest ih =>
    intro st hdes hen hk hlen
    obtain ⟨hc, hd, hq, hs⟩ := track_effect parse cap st i.1 i.2.1 i.2.2 hdes hen
    have hstep : trackMany parse cap st (i :: rest)
        = trackMany parse cap (track parse cap st i.1 i.2.1 i.2.2) rest := rfl
    have hlen' : (track parse cap st i.1 i.2.1 i.2.2).queue.length
        ≤ (track parse cap st i.1 i.2.1 i.2.2).config.maxQueueSize := by
      rw [hq, hc]
      have := trimQueueList_length_le st.config.maxQueueSize
        (st.queue ++ [trackRecord cap st.config i.1 i.2.1 i.2.2])
      have hmax : max st.config.maxQueueSize
          (st.queue ++ [trackRecord cap st.config i.1 i.2.1 i.2.2]).length
          = if st.config.maxQueueSize
              < (st.queue ++ [trackRecord cap st.config i.1 i.2.1 i.2.2]).length
            then (st.queue ++ [trackRecord cap st.config i.1 i.2.1 i.2.2]).length
            else st.config.maxQueueSize := by
        split <;> omega
      rw [trimQueueList_eq_drop]
      simp [List.length_drop]
      omega
    obtain ⟨ic, id2, iq, inil, istore⟩ :=
      ih (track parse cap st i.1 i.2.1 i.2.2) hd (by rw [hc]; exact hen)
        (by rw [hc]; exact hk) hlen'
    refine ⟨?_, ?_, ?_, ?_, ?_⟩
    · rw [hstep, ic, hc]
    · rw [hstep]
      exact id2
    · rw [hstep, iq, hc, hq, trimQueueList_append]
      simp
    · intro h
      exact absurd h (by simp)
    · intro _
      rw [hstep]
      rcases Decidable.em (rest = []) with hr | hr
      · subst hr
        rw [inil rfl, hs]
        have hne : (track parse cap st i.1 i.2.1 i.2.2).queue ≠ [] := by
          rw [hq]
          exact trimQueueList_append_ne_nil _ hk _ _
        unfold writeQueue
        rw [if_neg hne]
        exact storage_get_set _ _ _
      · have hst2 := istore hr
        rw [hc] at hst2
        exact hst2

/-- Claim C2: for any sequence of `N` `track` calls on an enabled client
with empty queue and `maxQueueSize = k < N`, the queue never exceeds `k`
records (for every prefix of the sequence), eviction is oldest-first, and
after the `N`-th call the queue — and the persisted snapshot under the
storage key — holds exactly the `k` most recent constructed records in
application order. -/
theorem queue_bound_eviction (parse : UrlParser) (cap : SanitizeCapabilities)
    (st : ClientState) (inputs : List (LocalSpaceAnalyticsEvent × String × Int))
    (k : Nat) (hdes : st.isDestroyed = false) (hen : st.config.enabled = true)
    (hk : st.config.maxQueueSize = k) (hk1 : 1 ≤ k) (hq0 : st.queue = [])
    (hN : k < inputs.length) :
    (trackMany parse cap st inputs).queue
      = (inputs.map fun i => trackRecord cap st.config i.1 i.2.1 i.2.2).drop
          (inputs.length - k)
    ∧ (trackMany parse cap st inputs).queue.length = k
    ∧ (∀ pre, pre <+: inputs → (trackMany parse cap st pre).queue.length ≤ k)
    ∧ Storage.get (trackMany parse cap st inputs).storage st.config.storageKey
        = some ((trackMany parse cap st inputs).queue.map (·.toStored)) := by
  obtain ⟨hc, hd, hq, hnil, hstore⟩ :=
    trackMany_spec parse cap inputs st hdes hen (by omega) (by rw [hq0]; simp)
  have hqd : (trackMany parse cap st inputs).queue
      = (inputs.map fun i => trackRecord cap st.config i.1 i.2.1 i.2.2).drop
          (inputs.length - k) := by
    rw [hq, hq0, List.nil_append, trimQueueList_eq_drop, hk]
    simp
  refine ⟨hqd, ?_, ?_, ?_⟩
  · rw [hqd]
    simp only [List.length_drop, List.length_map]
    omega
  · intro pre _
    obtain ⟨_, _, hqp, _, _⟩ :=
      trackMany_spec parse cap pre st hdes hen (by omega) (by rw [hq0]; simp)
    rw [hqp, trimQueueList_eq_drop, hk]
    simp only [List.length_drop]
    omega
  · exact hstore (by intro h; rw [h] at hN; simp at hN)

/-- Witness for C2: three `track` calls against `maxQueueSize = 2`. -/
theorem queue_bound_eviction_witness :
    (sampleSmallState.config.maxQueueSize = 2 ∧ sampleSmallState.queue = []
      ∧ 2 < sampleInputs.length)
    ∧ ((trackMany miniParseUrl transparentCap sampleSmallState sampleInputs).queue
        = (sampleInputs.map fun i =>
            trackRecord transparentCap sampleSmallState.config i.1 i.2.1 i.2.2).drop
            (sampleInputs.length - 2)
      ∧ (trackMany miniParseUrl transparentCap sampleSmallState sampleInputs).queue.length = 2
      ∧ (∀ pre, pre <+: sampleInputs →
          (trackMany miniParseUrl transparentCap sampleSmallState pre).queue.length ≤ 2)
      ∧ Storage.get
          (trackMany miniParseUrl transparentCap sampleSmallState sampleInputs).storage
          sampleSmallState.config.storageKey
        = some ((trackMany miniParseUrl transparentCap sampleSmallState
            sampleInputs).queue.map (·.toStored))) :=
  ⟨⟨rfl, rfl, by decide⟩,
    queue_bound_eviction miniParseUrl transparentCap sampleSmallState sampleInputs 2
      rfl rfl rfl (by decide) rfl (by decide)⟩

/-- An in-place map update is found by lookup. -/
theorem lookup_map_update_self {b : Type} (m : List (String × b)) (k : String)
    (v : b) (h : (List.lookup k m).isSome = true) :
    List.lookup k (m.map fun kv => if kv.1 = k then (k, v) else kv) = some v := by
  induction m with
  | nil => simp [List.lookup] at h
  | cons a s ih =>
    rcases a with ⟨ka, va⟩
    rw [List.map_cons]
    by_cases hk : ka = k
    · subst hk
      rw [show (if ((ka, va) : String × b).1 = ka then (ka, v) else (ka, va))
          = (ka, v) from by simp]
      simp [List.lookup]
    · rw [show (if ((ka, va) : String × b).1 = k then (k, v) else (ka, va))
          = (ka, va) from by simp [hk]]
      rw [List.lookup] at h
      rw [beq_eq_false_iff_ne.mpr (Ne.symm hk)] at h
      simpa [List.lookup, beq_eq_false_iff_ne.mpr (Ne.symm hk)] using ih h

/-- An appended fresh key is found by lookup. -/
theorem lookup_append_single_self {b : Type} (m : List (String × b))
    (k : String) (v : b) (h : List.lookup k m = none) :
    List.lookup k (m ++ [(k, v)]) = some v := by
  induction m with
  | nil => simp [List.lookup]
  | cons a s ih =>
    rcases a with ⟨ka, va⟩
    by_cases hk : ka = k
    · subst hk
      simp [List.lookup] at h
    · rw [List.lookup] at h
      rw [beq_eq_false_iff_ne.mpr (Ne.symm hk)] at h
      simpa [List.lookup, beq_eq_false_iff_ne.mpr (Ne.symm hk)] using ih h

/-- `Map.set` is observed by `Map.get` on the same key. -/
theorem lookup_aggSet_self (m : IssueAggregates) (k : String)
    (v : IssueAggregateState) :
    List.lookup k (aggSet m k v) = some v := by
  unfold aggSet
  split
  · exact lookup_map_update_self m k v (by assumption)
  · rename_i h
    exact lookup_append_single_self m k v (by
      cases hl : List.lookup k m
      · rfl
      · rw [hl] at h
        simp at h)

/-- Claim C4: with `thresholdCount = 3` and `thresholdWindowMs = W`, three
`recordIssue` occurrences of the same fingerprint within `W` invoke the
threshold callback exactly once (fires on the third report only), and a
fourth occurrence arriving less than `W` after the callback fired does not
invoke it again; moreover, in general the callback fires only when the
pruned in-window occurrence count has reached `thresholdCount` and at least
`W` has elapsed since the last firing for that fingerprint. -/
theorem threshold_cooldown (erCfg : ResolvedLocalSpaceErrorReportingConfig)
    (d : LocalSpaceAnalyticsErrorDetails) (W : Nat)
    (hW : erCfg.thresholdWindowMs = W) (hc : erCfg.thresholdCount = 3)
    (hcb : erCfg.onThresholdConfigured = true)
    (t1 t2 t3 t4 : Int) (h12 : t1 ≤ t2) (h23 : t2 ≤ t3) (h34 : t3 ≤ t4)
    (hwin : t3 - t1 ≤ (W : Int)) (hcool : t4 - t3 < (W : Int)) :
    ((recordIssue erCfg [] d t1 true).2 = false
      ∧ (recordIssue erCfg (recordIssue erCfg [] d t1 true).1 d t2 true).2 = false
      ∧ (recordIssue erCfg
          (recordIssue erCfg (recordIssue erCfg [] d t1 true).1 d t2 true).1
          d t3 true).2 = true
      ∧ (recordIssue erCfg
          (recordIssue erCfg
            (recordIssue erCfg (recordIssue erCfg [] d t1 true).1 d t2 true).1
            d t3 true).1
          d t4 true).2 = false)
    ∧ (∀ (aggs : IssueAggregates) (t : Int) (trig : Bool),
        (recordIssue erCfg aggs d t trig).2 = true →
        erCfg.thresholdCount
            ≤ (pruneTimestamps erCfg.thresholdWindowMs t
                (issueTimestampsAfterInsert aggs d t)).length
          ∧ ∀ last, issueLastTriggered aggs d.fingerprint = some last →
              (erCfg.thresholdWindowMs : Int) ≤ t - last) := by
  constructor
  · subst hW
    have hW0 : ¬((erCfg.thresholdWindowMs : Int) < 0) := by omega
    have a11 : t1 ≤ t1 + (erCfg.thresholdWindowMs : Int) := by omega
    have a21 : t2 ≤ t1 + (erCfg.thresholdWindowMs : Int) := by omega
    have a22 : t2 ≤ t2 + (erCfg.thresholdWindowMs : Int) := by omega
    have a31 : t3 ≤ t1 + (erCfg.thresholdWindowMs : Int) := by omega
    have a32 : t3 ≤ t2 + (erCfg.thresholdWindowMs : Int) := by omega
    have a33 : t3 ≤ t3 + (erCfg.thresholdWindowMs : Int) := by omega
    have a43 : t4 ≤ t3 + (erCfg.thresholdWindowMs : Int) := by omega
    have a44 : t4 ≤ t4 + (erCfg.thresholdWindowMs : Int) := by omega
    have hcool2 : t4 < t3 + (erCfg.thresholdWindowMs : Int) := by omega
    have e1 : recordIssue erCfg [] d t1 true
        = ([(d.fingerprint,
            { timestamps := [t1], sample := d, lastTriggeredAt := none })], false) := by
      simp [recordIssue, aggSet, pruneTimestamps, List.lookup, hc, hcb, hW0, a11]
    have e2 : recordIssue erCfg
        [(d.fingerprint,
          { timestamps := [t1], sample := d, lastTriggeredAt := none })] d t2 true
        = ([(d.fingerprint,
            { timestamps := [t1, t2], sample := d, lastTriggeredAt := none })],
           false) := by
      simp [recordIssue, aggSet, pruneTimestamps, List.lookup, hc, hcb, hW0,
        a21, a22]
    have e3 : recordIssue erCfg
        [(d.fingerprint,
          { timestamps := [t1, t2], sample := d, lastTriggeredAt := none })] d t3 true
        = ([(d.fingerprint,
            { timestamps := [t1, t2, t3], sample := d,
              lastTriggeredAt := some t3 })], true) := by
      simp [recordIssue, aggSet, pruneTimestamps, List.lookup, hc, hcb, hW0,
        a31, a32, a33]
    have e4 : (recordIssue erCfg
        [(d.fingerprint,
          { timestamps := [t1, t2, t3], sample := d,
            lastTriggeredAt := some t3 })] d t4 true).2 = false := by
      by_cases b1 : t4 ≤ t1 + (erCfg.thresholdWindowMs : Int) <;>
        by_cases b2 : t4 ≤ t2 + (erCfg.thresholdWindowMs : Int) <;>
          simp [recordIssue, aggSet, pruneTimestamps, List.lookup, hc, hcb, hW0,
            b1, b2, a43, a44, hcool2, hcool]
    exact ⟨by simp [e1], by simp [e1, e2], by simp [e1, e2, e3],
      by simp [e1, e2, e3, e4]⟩
  · intro aggs t trig hfired
    unfold recordIssue at hfired
    unfold issueTimestampsAfterInsert issueLastTriggered
    cases hl : List.lookup d.fingerprint aggs with
    | none =>
      rw [hl] at hfired
      dsimp only at hfired
      rw [lookup_aggSet_self] at hfired
      dsimp only at hfired
      dsimp only
      constructor
      · by_contra hlt
        push_neg at hlt
        split_ifs at hfired <;>
          first
            | omega
            | (dsimp only at hfired; exact Bool.noConfusion hfired)
      · intro last hlast
        simp at hlast
    | some existing =>
      rw [hl] at hfired
      dsimp only at hfired
      rw [lookup_aggSet_self] at hfired
      dsimp only at hfired
      dsimp only
      constructor
      · rcases Nat.lt_or_ge
            (pruneTimestamps erCfg.thresholdWindowMs t
              (existing.timestamps ++ [t])).length erCfg.thresholdCount with hlen | hlen
        · exfalso
          rcases hlast : existing.lastTriggeredAt with _ | last <;>
            rw [hlast] at hfired <;> dsimp only at hfired <;>
              split_ifs at hfired <;> simp_all
        · exact hlen
      · intro last hlast
        dsimp only [Option.bind] at hlast
        rw [hlast] at hfired
        dsimp only at hfired
        split_ifs at hfired <;>
          first
            | omega
            | (dsimp only at hfired; exact Bool.noConfusion hfired)

/-- Witness for C4 at timestamps 0, 1, 2, 3 against the default window. -/
theorem threshold_cooldown_witness :
    (sampleThresholdCfg.thresholdWindowMs = 300000
      ∧ sampleThresholdCfg.thresholdCount = 3
      ∧ sampleThresholdCfg.onThresholdConfigured = true
      ∧ (2 : Int) - 0 ≤ (300000 : Nat) ∧ (3 : Int) - 2 < (300000 : Nat))
    ∧ (((recordIssue sampleThresholdCfg [] sampleErrDetails 0 true).2 = false
      ∧ (recordIssue sampleThresholdCfg
          (recordIssue sampleThresholdCfg [] sampleErrDetails 0 true).1
          sampleErrDetails 1 true).2 = false
      ∧ (recordIssue sampleThresholdCfg
          (recordIssue sampleThresholdCfg
            (recordIssue sampleThresholdCfg [] sampleErrDetails 0 true).1
            sampleErrDetails 1 true).1
          sampleErrDetails 2 true).2 = true
      ∧ (recordIssue sampleThresholdCfg
          (recordIssue sampleThresholdCfg
            (recordIssue sampleThresholdCfg
              (recordIssue sampleThresholdCfg [] sampleErrDetails 0 true).1
              sampleErrDetails 1 true).1
            sampleErrDetails 2 true).1
          sampleErrDetails 3 true).2 = false)
    ∧ (∀ (aggs : IssueAggregates) (t : Int) (trig : Bool),
        (recordIssue sampleThresholdCfg aggs sampleErrDetails t trig).2 = true →
        sampleThresholdCfg.thresholdCount
            ≤ (pruneTimestamps sampleThresholdCfg.thresholdWindowMs t
                (issueTimestampsAfterInsert aggs sampleErrDetails t)).length
          ∧ ∀ last,
              issueLastTriggered aggs sampleErrDetails.fingerprint = some last →
              (sampleThresholdCfg.thresholdWindowMs : Int) ≤ t - last)) :=
  ⟨⟨by decide, by decide, by decide, by decide, by decide⟩,
    threshold_cooldown sampleThresholdCfg sampleErrDetails 300000 (by decide)
      (by decide) (by decide) 0 1 2 3 (by decide) (by decide) (by decide)
      (by decide) (by decide)⟩

/-- With no pre-existing fingerprint, the fingerprint of a normalized report
is exactly the rolling hash of
`boundary|name|message|first-stack-line|severity`. -/
theorem fingerprint_formula (cap : SanitizeCapabilities)
    (erCfg : ResolvedLocalSpaceErrorReportingConfig)
    (r : LocalSpaceErrorReportInput) :
    (normalizeErrorReport cap erCfg r none).fingerprint
      = "err_" ++ hexString (hashString
          ((normalizeErrorReport cap erCfg r none).boundary ++ "|"
            ++ (normalizeErrorReport cap erCfg r none).name ++ "|"
            ++ (normalizeErrorReport cap erCfg r none).message ++ "|"
            ++ firstStackLine (normalizeErrorReport cap erCfg r none) ++ "|"
            ++ (normalizeErrorReport cap erCfg r none).severity.toStr)) := by
  simp [normalizeErrorReport, firstStackLine]

/-- A first occurrence lands in a fresh single-entry aggregate keyed by the
report's fingerprint. -/
theorem recordIssue_nil_shape (erCfg : ResolvedLocalSpaceErrorReportingConfig)
    (d : LocalSpaceAnalyticsErrorDetails) (t : Int) (g : Bool) :
    ∃ v, (recordIssue erCfg [] d t g).1 = [(d.fingerprint, v)] := by
  have hle : t - (erCfg.thresholdWindowMs : Int) ≤ t := by omega
  simp [recordIssue, aggSet, pruneTimestamps, List.lookup, hle]
  split_ifs <;> exact ⟨_, rfl⟩

/-- A further occurrence whose fingerprint matches a single-entry aggregate
stays within that one entry (it may only update or empty it). -/
theorem recordIssue_on_single (erCfg : ResolvedLocalSpaceErrorReportingConfig)
    (fp : String) (v : IssueAggregateState)
    (d : LocalSpaceAnalyticsErrorDetails) (t : Int) (g : Bool)
    (hfp : d.fingerprint = fp) :
    (recordIssue erCfg [(fp, v)] d t g).1.length ≤ 1 := by
  subst hfp
  simp [recordIssue, aggSet, aggDelete, List.lookup]
  split_ifs <;> try simp
  all_goals
    rcases hvl : v.lastTriggeredAt with _ | l <;> simp [hvl] <;>
      split_ifs <;> simp

/-- Claim C5: two `reportError` inputs that normalize to identical boundary,
error name, message, first stack line and severity produce identical
fingerprints (the fingerprint is a deterministic function of
`boundary|name|message|first-stack-line|severity`), and recording both
increments the same issue aggregate: starting from no aggregates, the second
report lands in the first report's single aggregate entry instead of
creating a second one. -/
theorem fingerprint_stability (cap : SanitizeCapabilities)
    (erCfg : ResolvedLocalSpaceErrorReportingConfig)
    (r1 r2 : LocalSpaceErrorReportInput)
    (hb : (normalizeErrorReport cap erCfg r1 none).boundary
      = (normalizeErrorReport cap erCfg r2 none).boundary)
    (hn : (normalizeErrorReport cap erCfg r1 none).name
      = (normalizeErrorReport cap erCfg r2 none).name)
    (hm : (normalizeErrorReport cap erCfg r1 none).message
      = (normalizeErrorReport cap erCfg r2 none).message)
    (hs : firstStackLine (normalizeErrorReport cap erCfg r1 none)
      = firstStackLine (normalizeErrorReport cap erCfg r2 none))
    (hsev : (normalizeErrorReport cap erCfg r1 none).severity
      = (normalizeErrorReport cap erCfg r2 none).severity) :
    (normalizeErrorReport cap erCfg r1 none).fingerprint
      = (normalizeErrorReport cap erCfg r2 none).fingerprint
    ∧ ∀ (t1 t2 : Int) (g1 g2 : Bool),
        (recordIssue erCfg
          (recordIssue erCfg [] (normalizeErrorReport cap erCfg r1 none) t1 g1).1
          (normalizeErrorReport cap erCfg r2 none) t2 g2).1.length ≤ 1 := by
  have hfp : (normalizeErrorReport cap erCfg r1 none).fingerprint
      = (normalizeErrorReport cap erCfg r2 none).fingerprint := by
    rw [fingerprint_formula, fingerprint_formula, hb, hn, hm, hs, hsev]
  refine ⟨hfp, ?_⟩
  intro t1 t2 g1 g2
  obtain ⟨v, hA⟩ :=
    recordIssue_nil_shape erCfg (normalizeErrorReport cap erCfg r1 none) t1 g1
  rw [hA]
  exact recordIssue_on_single erCfg _ v _ t2 g2 hfp.symm

/-- Witness for C5 with two syntactically identical inputs. -/
theorem fingerprint_stability_witness :
    ((normalizeErrorReport transparentCap defaultErrCfg sampleReportInput none).fingerprint
      = (normalizeErrorReport transparentCap defaultErrCfg sampleReportInput none).fingerprint
    ∧ ∀ (t1 t2 : Int) (g1 g2 : Bool),
        (recordIssue defaultErrCfg
          (recordIssue defaultErrCfg []
            (normalizeErrorReport transparentCap defaultErrCfg sampleReportInput none)
            t1 g1).1
          (normalizeErrorReport transparentCap defaultErrCfg sampleReportInput none)
          t2 g2).1.length ≤ 1) :=
  fingerprint_stability transparentCap defaultErrCfg sampleReportInput
    sampleReportInput rfl rfl rfl rfl rfl

/-- The storage key a successful resolve produces is `resolveStorageKey` of
the supplied key against the resolved source/channel and the previous
config. -/
theorem resolveConfig_storageKey (config : LocalSpaceAnalyticsConfig)
    (prev : Option ResolvedLocalSpaceAnalyticsConfig) (env : Bool)
    (fresh : String) (resolved : ResolvedLocalSpaceAnalyticsConfig)
    (h : resolveConfig config prev env fresh = some resolved) :
    resolved.storageKey
      = resolveStorageKey config.storageKey resolved.source resolved.channel
          prev := by
  unfold resolveConfig at h
  cases hep : config.endpoint <;> rw [hep] at h <;> dsimp only at h <;>
    split at h <;>
      first
        | exact Option.noConfusion h
        | (injection h with h; rw [← h]; try rfl)

/-- What a non-destroyed `updateConfig` does to config, queue and store when
the resolver succeeds: adopt the new config, keep the queue, and migrate the
persisted snapshot exactly when the effective storage key changed. -/
theorem updateConfig_effect (parse : UrlParser) (st : ClientState)
    (next : LocalSpaceAnalyticsConfig) (env : Bool)
    (resolved : ResolvedLocalSpaceAnalyticsConfig)
    (hdes : st.isDestroyed = false)
    (hres : resolveConfig (mergeConfigInput st.config next) (some st.config) env ""
      = some resolved) :
    ∃ stNew, updateConfig parse st next env = some stNew
      ∧ stNew.config = resolved
      ∧ stNew.queue = st.queue
      ∧ stNew.storage
          = (if st.config.storageKey ≠ resolved.storageKey then
              writeQueue (writeQueue st.storage st.config.storageKey [])
                resolved.storageKey st.queue
            else st.storage) := by
  unfold updateConfig
  rw [if_neg (show ¬st.isDestroyed = true by simp [hdes]), hres]
  dsimp only
  refine ⟨_, rfl, ?_, ?_, ?_⟩ <;>
    (repeat' split) <;>
      simp_all [flushStart_state_config, flushStart_state_queue,
        flushStart_state_storage, startFlushTimer, persistQueue]

/-- Counterexample to claim C8: a client created without an explicit storage
key (default key `…frontend.sharedcomponents`), with one tracked record,
updated via `updateConfig` to `channel = backend`.  The channel changes but
the storage key is NOT re-derived (it stays the frontend default, which
differs from the backend default) and nothing migrates: the record stays
under the old key and no backend key exists — because `updateConfig` spreads
the previously resolved key into the update as an explicit key. -/
theorem storage_key_not_rederived_counterexample :
    (((createLocalSpaceAnalyticsClient transparentCap sampleCreateInput true
          "session_1" []).map fun st =>
        track miniParseUrl transparentCap st (sampleEvent "Header") "event_1" 0).bind
        (fun st =>
          updateConfig miniParseUrl st
            { emptyPartialConfig with channel := some .backend } true)).map
        (fun st =>
          (st.config.channel, st.config.storageKey,
            (Storage.get st.storage
              "plasius.analytics.local-space.queue.frontend.sharedcomponents").isSome,
            (Storage.get st.storage
              "plasius.analytics.local-space.queue.backend.sharedcomponents").isSome))
      = some (.backend,
          "plasius.analytics.local-space.queue.frontend.sharedcomponents",
          true, false)
    ∧ "plasius.analytics.local-space.queue.frontend.sharedcomponents"
        ≠ buildDefaultStorageKey "sharedcomponents" .backend := by decide

/-- Claim C8 (amended): `updateConfig` passes the previously resolved storage
key through as an explicit key, so an update that omits `storageKey` — in
particular a bare channel/source change — keeps the previous effective key
(default-derived or explicitly set alike) and performs no migration; a
supplied `storageKey` that trims non-blank becomes the effective key after
trimming; a supplied `storageKey` that trims blank falls through to
re-derivation: the default key built from the new (channel, sanitized-source)
pair when the previous key equalled the previous default, the previous
(explicitly-set) key otherwise; and exactly when the effective key changes,
migration happens: the old key is cleared and the in-memory queue is
persisted under the new key (the entry removed again when the queue is
empty, per `writeQueue`). -/
theorem storage_key_update_behavior (parse : UrlParser) (st : ClientState)
    (next : LocalSpaceAnalyticsConfig) (env : Bool) (stNew : ClientState)
    (hdes : st.isDestroyed = false)
    (htrim : jsTrim st.config.storageKey = st.config.storageKey)
    (hne : st.config.storageKey ≠ "")
    (hupd : updateConfig parse st next env = some stNew) :
    (next.storageKey = none → stNew.config.storageKey = st.config.storageKey)
    ∧ (∀ k, next.storageKey = some k → jsTrim k ≠ "" →
        stNew.config.storageKey = jsTrim k)
    ∧ (∀ k, next.storageKey = some k → jsTrim k = "" →
        stNew.config.storageKey
          = if st.config.storageKey
                = buildDefaultStorageKey st.config.source st.config.channel then
              buildDefaultStorageKey stNew.config.source stNew.config.channel
            else st.config.storageKey)
    ∧ (stNew.config.storageKey = st.config.storageKey →
        stNew.storage = st.storage)
    ∧ (stNew.config.storageKey ≠ st.config.storageKey →
        Storage.get stNew.storage st.config.storageKey = none
        ∧ Storage.get stNew.storage stNew.config.storageKey
          = if stNew.queue = [] then none
            else some (stNew.queue.map (·.toStored))) := by
  have hopt : ∃ resolved,
      resolveConfig (mergeConfigInput st.config next) (some st.config) env ""
        = some resolved := by
    unfold updateConfig at hupd
    rw [if_neg (show ¬st.isDestroyed = true by simp [hdes])] at hupd
    cases hres : resolveConfig (mergeConfigInput st.config next) (some st.config) env "" with
    | none =>
      rw [hres] at hupd
      exact Option.noConfusion hupd
    | some r => exact ⟨r, rfl⟩
  obtain ⟨resolved, hres⟩ := hopt
  obtain ⟨stNew2, hupd2, hcfg, hq, hstor⟩ :=
    updateConfig_effect parse st next env resolved hdes hres
  rw [hupd] at hupd2
  obtain rfl : stNew = stNew2 := Option.some.inj hupd2
  have hsk := resolveConfig_storageKey _ _ _ _ _ hres
  have hmsk : (mergeConfigInput st.config next).storageKey
      = next.storageKey.orElse fun _ => some st.config.storageKey := rfl
  refine ⟨?_, ?_, ?_, ?_, ?_⟩
  · intro hnone
    rw [hcfg, hsk, hmsk, hnone]
    simp [resolveStorageKey, Option.orElse, htrim, hne]
  · intro k hk hkt
    rw [hcfg, hsk, hmsk, hk]
    simp [resolveStorageKey, Option.orElse, hkt]
  · intro k hk hkb
    rw [hcfg, hsk, hmsk, hk]
    simp [resolveStorageKey, Option.orElse, hkb]
  · intro hsame
    have heq : st.config.storageKey = resolved.storageKey := by
      rw [← hcfg]
      exact hsame.symm
    rw [hstor, if_neg (by simp [heq])]
  · intro hkne
    have hchanged : st.config.storageKey ≠ resolved.storageKey := by
      rw [← hcfg]
      exact fun h => hkne h.symm
    rw [hstor, if_pos hchanged, hq, hcfg]
    have hin : writeQueue st.storage st.config.storageKey []
        = Storage.remove st.storage st.config.storageKey := by
      simp [writeQueue]
    rw [hin]
    by_cases hql : st.queue = []
    · rw [show writeQueue (Storage.remove st.storage st.config.storageKey)
          resolved.storageKey st.queue
          = Storage.remove (Storage.remove st.storage st.config.storageKey)
              resolved.storageKey from by simp [writeQueue, hql]]
      refine ⟨?_, ?_⟩
      · rw [storage_get_remove_ne _ _ _ hchanged]
        exact storage_get_remove _ _
      · rw [if_pos hql]
        exact storage_get_remove _ _
    · rw [show writeQueue (Storage.remove st.storage st.config.storageKey)
          resolved.storageKey st.queue
          = Storage.set (Storage.remove st.storage st.config.storageKey)
              resolved.storageKey (st.queue.map (·.toStored)) from by
            simp [writeQueue, hql]]
      refine ⟨?_, ?_⟩
      · rw [storage_get_set_ne _ _ _ _ hchanged]
        exact storage_get_remove _ _
      · rw [if_neg hql]
        exact storage_get_set _ _ _

/-- Witness for the amended C8 at the concrete keyed update. -/
theorem storage_key_update_behavior_witness :
    (sampleReadyState.isDestroyed = false
      ∧ jsTrim sampleReadyState.config.storageKey
          = sampleReadyState.config.storageKey
      ∧ sampleReadyState.config.storageKey ≠ ""
      ∧ updateConfig miniParseUrl sampleReadyState sampleKeyedUpdate true
          = some sampleUpdatedState)
    ∧ ((sampleKeyedUpdate.storageKey = none →
        sampleUpdatedState.config.storageKey = sampleReadyState.config.storageKey)
      ∧ (∀ k, sampleKeyedUpdate.storageKey = some k → jsTrim k ≠ "" →
          sampleUpdatedState.config.storageKey = jsTrim k)
      ∧ (∀ k, sampleKeyedUpdate.storageKey = some k → jsTrim k = "" →
          sampleUpdatedState.config.storageKey
            = if sampleReadyState.config.storageKey
                  = buildDefaultStorageKey sampleReadyState.config.source
                      sampleReadyState.config.channel then
                buildDefaultStorageKey sampleUpdatedState.config.source
                  sampleUpdatedState.config.channel
              else sampleReadyState.config.storageKey)
      ∧ (sampleUpdatedState.config.storageKey
            = sampleReadyState.config.storageKey →
          sampleUpdatedState.storage = sampleReadyState.storage)
      ∧ (sampleUpdatedState.config.storageKey
            ≠ sampleReadyState.config.storageKey →
          Storage.get sampleUpdatedState.storage
              sampleReadyState.config.storageKey = none
          ∧ Storage.get sampleUpdatedState.storage
                sampleUpdatedState.config.storageKey
            = if sampleUpdatedState.queue = [] then none
              else some (sampleUpdatedState.queue.map (·.toStored)))) :=
  ⟨⟨rfl, by decide, by decide, by decide⟩,
    storage_key_update_behavior miniParseUrl sampleReadyState sampleKeyedUpdate
      true sampleUpdatedState rfl (by decide) (by decide) (by decide)⟩

/-- A serialized live record always passes the structural validation. -/
theorem toStored_candidate (r : LocalSpaceAnalyticsRecord) :
    isStoredRecordCandidate r.toStored = true := rfl

/-- Filtering serialized live records by the structural validation keeps
them all. -/
theorem filter_candidates_map_toStored (l : List LocalSpaceAnalyticsRecord) :
    (l.map (·.toStored)).filter isStoredRecordCandidate = l.map (·.toStored) := by
  induction l with
  | nil => rfl
  | cons a t ih => simp [List.filter_cons, toStored_candidate, ih]

/-- Re-reading the serialized form of a live record preserves every
observable field, and the present kind/channel/runtime normalize back to
themselves (whatever the new client's fallback config). -/
theorem normalizeStored_toStored_fields (cap2 : SanitizeCapabilities)
    (cfg2 : ResolvedLocalSpaceAnalyticsConfig) (r : LocalSpaceAnalyticsRecord) :
    observablyEqual (normalizeStoredRecord cap2 r.toStored cfg2) r
    ∧ (normalizeStoredRecord cap2 r.toStored cfg2).kind = r.kind
    ∧ (normalizeStoredRecord cap2 r.toStored cfg2).channel = r.channel
    ∧ (normalizeStoredRecord cap2 r.toStored cfg2).runtime = r.runtime := by
  rcases r with ⟨id, comp, act, kind, ch, rt, lab, href, var, req, src, sess, ts, ctx, err⟩
  cases kind <;> cases ch <;> cases rt <;>
    simp [normalizeStoredRecord, LocalSpaceAnalyticsRecord.toStored,
      observablyEqual, AnalyticsEventKind.toStr, AnalyticsChannel.toStr,
      AnalyticsRuntime.toStr]

/-- `slice(-k)` of a list ending in `x` still ends in `x` when `k ≥ 1`. -/
theorem sliceLastN_getLast (k : Nat) (hk : 1 ≤ k)
    (B : List LocalSpaceAnalyticsRecord) (x : LocalSpaceAnalyticsRecord) :
    (sliceLastN k (B ++ [x])).getLast? = some x := by
  unfold sliceLastN
  have hlen : (B ++ [x]).length - k ≤ B.length := by
    simp
    omega
  rw [List.drop_append_of_le_length hlen]
  simp

/-- Claim C9: an event accepted by `track` is persisted such that a new
client constructed over the same storage key reads it back: its serialized
form passes structural validation, the new client's queue ends with its
normalization, and that normalization leaves every observable field (id,
component, action, source, sessionId, timestamp, label, href, variant,
context) unchanged, with the present kind/channel/runtime normalized back to
themselves. -/
theorem round_trip_persistence (parse : UrlParser)
    (cap cap2 : SanitizeCapabilities) (st : ClientState)
    (e : LocalSpaceAnalyticsEvent) (freshId : String) (now : Int)
    (input2 : LocalSpaceAnalyticsConfig) (env : Bool) (fresh2 : String)
    (stNew : ClientState)
    (hdes : st.isDestroyed = false) (hen : st.config.enabled = true)
    (hk1 : 1 ≤ st.config.maxQueueSize)
    (hmk : createLocalSpaceAnalyticsClient cap2 input2 env fresh2
        (track parse cap st e freshId now).storage = some stNew)
    (hkey : stNew.config.storageKey = st.config.storageKey)
    (hk2 : 1 ≤ stNew.config.maxQueueSize) :
    isStoredRecordCandidate (trackRecord cap st.config e freshId now).toStored
        = true
    ∧ stNew.queue.getLast?
        = some (normalizeStoredRecord cap2
            (trackRecord cap st.config e freshId now).toStored stNew.config)
    ∧ observablyEqual
        (normalizeStoredRecord cap2
          (trackRecord cap st.config e freshId now).toStored stNew.config)
        (trackRecord cap st.config e freshId now)
    ∧ (normalizeStoredRecord cap2
        (trackRecord cap st.config e freshId now).toStored stNew.config).kind
        = (trackRecord cap st.config e freshId now).kind
    ∧ (normalizeStoredRecord cap2
        (trackRecord cap st.config e freshId now).toStored stNew.config).channel
        = (trackRecord cap st.config e freshId now).channel
    ∧ (normalizeStoredRecord cap2
        (trackRecord cap st.config e freshId now).toStored stNew.config).runtime
        = (trackRecord cap st.config e freshId now).runtime := by
  obtain ⟨hc, hd, hq, hs⟩ := track_effect parse cap st e freshId now hdes hen
  set r := trackRecord cap st.config e freshId now with hr
  have hne1 : (track parse cap st e freshId now).queue ≠ [] := by
    rw [hq]
    exact trimQueueList_append_ne_nil _ hk1 _ _
  have hget : Storage.get (track parse cap st e freshId now).storage
      st.config.storageKey
      = some ((track parse cap st e freshId now).queue.map (·.toStored)) := by
    rw [hs]
    unfold writeQueue
    rw [if_neg hne1]
    exact storage_get_set _ _ _
  unfold createLocalSpaceAnalyticsClient at hmk
  cases hres : resolveConfig input2 none env fresh2 with
  | none =>
    rw [hres] at hmk
    exact Option.noConfusion hmk
  | some cfg2 =>
    rw [hres] at hmk
    dsimp only at hmk
    injection hmk with hmk
    have hcfg : stNew.config = cfg2 := by rw [← hmk]
    have hkey2 : cfg2.storageKey = st.config.storageKey := by
      rw [← hcfg]
      exact hkey
    have hqueue : stNew.queue
        = sliceLastN cfg2.maxQueueSize
            (readQueue cap2 cfg2.storageKey cfg2
              (track parse cap st e freshId now).storage) := by
      rw [← hmk]
    have hread : readQueue cap2 cfg2.storageKey cfg2
        (track parse cap st e freshId now).storage
        = (track parse cap st e freshId now).queue.map
            fun x => normalizeStoredRecord cap2 x.toStored cfg2 := by
      unfold readQueue
      rw [hkey2, hget]
      dsimp only
      rw [filter_candidates_map_toStored, List.map_map]
      rfl
    have hsplit : (track parse cap st e freshId now).queue
        = st.queue.drop ((st.queue ++ [r]).length - st.config.maxQueueSize)
            ++ [r] := by
      rw [hq, trimQueueList_eq_drop]
      exact List.drop_append_of_le_length (by simp; omega)
    have hlast : stNew.queue.getLast?
        = some (normalizeStoredRecord cap2 r.toStored cfg2) := by
      rw [hqueue, hread, hsplit, List.map_append]
      exact sliceLastN_getLast _ (by rw [← hcfg]; exact hk2) _ _
    obtain ⟨hobs, hkind, hch, hrt⟩ := normalizeStored_toStored_fields cap2 cfg2 r
    rw [hcfg]
    exact ⟨toStored_candidate r, hlast, hobs, hkind, hch, hrt⟩

/-- Witness for C9: track a Header event on the ready client, rebuild a
client over the same storage with the same explicit key, and the new queue
ends with that event's record, unchanged in observable fields. -/
theorem round_trip_persistence_witness :
    (sampleReadyState.isDestroyed = false
      ∧ sampleReadyState.config.enabled = true
      ∧ 1 ≤ sampleReadyState.config.maxQueueSize
      ∧ createLocalSpaceAnalyticsClient transparentCap sampleRoundInput true
          "session_1"
          (track miniParseUrl transparentCap sampleReadyState
            (sampleEvent "Header") "event_r" 5000).storage
          = some sampleRoundState
      ∧ sampleRoundState.config.storageKey = sampleReadyState.config.storageKey
      ∧ 1 ≤ sampleRoundState.config.maxQueueSize)
    ∧ (isStoredRecordCandidate
          (trackRecord transparentCap sampleReadyState.config
            (sampleEvent "Header") "event_r" 5000).toStored = true
        ∧ sampleRoundState.queue.getLast?
            = some (normalizeStoredRecord transparentCap
                (trackRecord transparentCap sampleReadyState.config
                  (sampleEvent "Header") "event_r" 5000).toStored
                sampleRoundState.config)
        ∧ observablyEqual
            (normalizeStoredRecord transparentCap
              (trackRecord transparentCap sampleReadyState.config
                (sampleEvent "Header") "event_r" 5000).toStored
              sampleRoundState.config)
            (trackRecord transparentCap sampleReadyState.config
              (sampleEvent "Header") "event_r" 5000)
        ∧ (normalizeStoredRecord transparentCap
            (trackRecord transparentCap sampleReadyState.config
              (sampleEvent "Header") "event_r" 5000).toStored
            sampleRoundState.config).kind
            = (trackRecord transparentCap sampleReadyState.config
                (sampleEvent "Header") "event_r" 5000).kind
        ∧ (normalizeStoredRecord transparentCap
            (trackRecord transparentCap sampleReadyState.config
              (sampleEvent "Header") "event_r" 5000).toStored
            sampleRoundState.config).channel
            = (trackRecord transparentCap sampleReadyState.config
                (sampleEvent "Header") "event_r" 5000).channel
        ∧ (normalizeStoredRecord transparentCap
            (trackRecord transparentCap sampleReadyState.config
              (sampleEvent "Header") "event_r" 5000).toStored
            sampleRoundState.config).runtime
            = (trackRecord transparentCap sampleReadyState.config
                (sampleEvent "Header") "event_r" 5000).runtime) :=
  ⟨⟨rfl, rfl, by decide, rfl, rfl, by decide⟩,
    round_trip_persistence miniParseUrl transparentCap transparentCap
      sampleReadyState (sampleEvent "Header") "event_r" 5000 sampleRoundInput
      true "session_1" sampleRoundState rfl rfl (by decide) rfl rfl (by decide)⟩
